import Mathlib

/-!
Verification of a serverless CORS proxy (Vercel, Node runtime).

The repository contains two request handlers:

* a standalone CORS proxy (`handler` below, with its helpers
  `getTargetFromRequest`, `isHttpHttps`, `isBlockedPrivateHost`,
  `reflectCors`, `preflight`, `fail`, `scrubRequestHeaders`,
  `scrubResponseHeaders`, `rateLimitAllow`, `getClientIP`), and
* a thin wrapper around the `cors-anywhere` package
  (`makeCorsAnywherePath`, `wrapperHandler` below).

The embedding is a direct translation of the JavaScript source.  JavaScript
runtime facilities used by the source are modelled explicitly:

* `new URL(s)` (WHATWG URL parser) is modelled by `parseURL`, which returns
  the `protocol` and `hostname` components the source reads.  The model
  covers the behaviour relevant here: scheme extraction and lowercasing,
  authority extraction for special schemes, userinfo stripping, forbidden
  host characters, port validation, and the fact that an IPv6 host is
  serialized in square brackets (so `new URL("http://[::1]/").hostname`
  is the string `"[::1]"`, bracket included).  IDNA mapping and IPv4
  numeric-form normalization are not modelled; hosts in all concrete
  inputs below are already in canonical form.
* `URLSearchParams.get` / `decodeURIComponent` are modelled by
  `searchParamGet` / `decodeURIComponentL` (percent-decoding at the byte
  level; decoded bytes are represented as Latin-1 characters, which agrees
  with JavaScript on ASCII data — all concrete inputs below are ASCII).
* Node's `res.setHeader` / `res.getHeader` case-insensitive
  single-valued header store is modelled by `setHeader` / `getHeader`.
* `fetch` is an oracle parameter of the handler (`FetchFn`): the handler
  receives the upstream response (or a thrown error message) for the
  outbound request it built, mirroring `redirect: "manual"` semantics in
  which the oracle's answer is the target's immediate response.
* `Date.now()` is a `Nat` parameter `t`; the mutable `rlBucket` map is
  threaded through the handler as explicit state.
* `JSON.stringify({ error: msg })` is modelled by `jsonError`.
* JavaScript `toLowerCase`/`trim` are modelled at ASCII level
  (`lower`, `trim`), which agrees with JavaScript on ASCII data.
-/

namespace CorsProxy

/-- ASCII lowercasing of one character, as JavaScript `toLowerCase` acts on
ASCII input. -/
def charToLower (c : Char) : Char :=
  if 'A' ≤ c ∧ c ≤ 'Z' then Char.ofNat (c.toNat + 32) else c

/-- ASCII lowercasing of a string. -/
def lower (s : String) : String := ⟨s.data.map charToLower⟩

/-- Whitespace recognizer used by the `trim` model. -/
def isWS (c : Char) : Bool :=
  c == ' ' || c == '\t' || c == '\n' || c == '\r'

/-- Trim of a character list on both ends. -/
def trimL (l : List Char) : List Char :=
  ((l.dropWhile isWS).reverse.dropWhile isWS).reverse

/-- Model of JavaScript `String.prototype.trim` (ASCII whitespace). -/
def trim (s : String) : String := ⟨trimL s.data⟩

/-- Split of a character list on a separator character, JavaScript
`String.prototype.split` style: `""` splits to `[""]`. -/
def splitOnCharAux (sep : Char) : List Char → List Char → List (List Char)
  | [], acc => [acc.reverse]
  | c :: rest, acc =>
    if c = sep then acc.reverse :: splitOnCharAux sep rest []
    else splitOnCharAux sep rest (c :: acc)

/-- Split of a character list on a separator character. -/
def splitOnCharL (sep : Char) (l : List Char) : List (List Char) :=
  splitOnCharAux sep l []

/-- Split of a string on a separator character. -/
def splitOnChar (sep : Char) (s : String) : List String :=
  (splitOnCharL sep s.data).map (fun l => ⟨l⟩)

/-- Test whether `s` starts with the pattern `p` (list form). -/
def startsWithL : List Char → List Char → Bool
  | _, [] => true
  | [], _ :: _ => false
  | c :: cs, p :: ps => c == p && startsWithL cs ps

/-- Test whether string `s` starts with string `p`. -/
def sStartsWith (s p : String) : Bool := startsWithL s.data p.data

/-- Numeric value of a decimal digit sequence. -/
def digitsVal (l : List Char) : Nat :=
  l.foldl (fun n c => n * 10 + (c.toNat - 48)) 0

/-- Model of JavaScript `parseInt(s, 10)`: skip leading whitespace, optional
sign, then the longest decimal-digit run; `none` models `NaN`. -/
def jsParseInt (s : String) : Option Int :=
  let l := s.data.dropWhile isWS
  match l with
  | '-' :: rest =>
    let ds := rest.takeWhile Char.isDigit
    if ds.isEmpty then none else some (-(digitsVal ds : Int))
  | '+' :: rest =>
    let ds := rest.takeWhile Char.isDigit
    if ds.isEmpty then none else some (digitsVal ds : Int)
  | _ =>
    let ds := l.takeWhile Char.isDigit
    if ds.isEmpty then none else some (digitsVal ds : Int)

/-- Hexadecimal value of a character, if it is a hex digit. -/
def hexVal (c : Char) : Option Nat :=
  if '0' ≤ c ∧ c ≤ '9' then some (c.toNat - 48)
  else if 'a' ≤ c ∧ c ≤ 'f' then some (c.toNat - 87)
  else if 'A' ≤ c ∧ c ≤ 'F' then some (c.toNat - 55)
  else none

/-- Model of `decodeURIComponent`: percent-decoding that fails (throws) on a
`%` not followed by two hex digits.  Decoded bytes are kept as Latin-1
characters (agrees with JavaScript on ASCII data). -/
def decodeURIComponentL : List Char → Option (List Char)
  | [] => some []
  | '%' :: rest =>
    match rest with
    | h1 :: h2 :: rest2 =>
      match hexVal h1, hexVal h2 with
      | some a, some b => (decodeURIComponentL rest2).map (Char.ofNat (16 * a + b) :: ·)
      | _, _ => none
    | _ => none
  | c :: rest => (decodeURIComponentL rest).map (c :: ·)

/-- Model of `application/x-www-form-urlencoded` value decoding used by
`URLSearchParams`: `+` becomes a space, valid `%XX` runs are decoded, and a
malformed `%` is passed through literally. -/
def formDecodeL : List Char → List Char
  | [] => []
  | '+' :: rest => ' ' :: formDecodeL rest
  | '%' :: h1 :: h2 :: rest =>
    match hexVal h1, hexVal h2 with
    | some a, some b => Char.ofNat (16 * a + b) :: formDecodeL rest
    | _, _ => '%' :: formDecodeL (h1 :: h2 :: rest)
  | c :: rest => c :: formDecodeL rest

/-- Portion of a request URL before the fragment. -/
def preFragment (reqUrl : String) : List Char :=
  reqUrl.data.takeWhile (· ≠ '#')

/-- Query string of a request URL (after `?`, before `#`), empty when no
`?` is present. -/
def queryOf (reqUrl : String) : List Char :=
  ((preFragment reqUrl).dropWhile (· ≠ '?')).drop 1

/-- Pathname of a request URL (before `?` and `#`). -/
def pathnameOf (reqUrl : String) : List Char :=
  (preFragment reqUrl).takeWhile (· ≠ '?')

/-- Decoded name/value pairs of a query string, `URLSearchParams` style. -/
def queryPairs (q : List Char) : List (String × String) :=
  if q.isEmpty then []
  else
    (splitOnCharL '&' q).filterMap (fun pair =>
      if pair.isEmpty then none
      else
        let name := pair.takeWhile (· ≠ '=')
        let value := (pair.dropWhile (· ≠ '=')).drop 1
        some (⟨formDecodeL name⟩, ⟨formDecodeL value⟩))

/-- Model of `new URL(reqUrl, base).searchParams.get(k)`: first pair with the
given decoded name. -/
def searchParamGet (reqUrl : String) (k : String) : Option String :=
  ((queryPairs (queryOf reqUrl)).find? (fun p => p.1 == k)).map (·.2)

/-- Remainder of `l` after the first occurrence of `marker`, as in
JavaScript `indexOf` plus `slice`. -/
def afterMarker (marker : List Char) : List Char → Option (List Char)
  | [] => if marker.isEmpty then some [] else none
  | c :: rest =>
    if startsWithL (c :: rest) marker then some ((c :: rest).drop marker.length)
    else afterMarker marker rest

/-! ### Model of the WHATWG URL parser (`new URL`) -/

/-- Result of `new URL(s)` restricted to the two components the proxy
reads: `protocol` (lowercased scheme with trailing colon) and `hostname`
(serialized host; an IPv6 host keeps its square brackets). -/
structure JSURL where
  protocol : String
  hostname : String
deriving DecidableEq, Repr

/-- Scheme characters after the first (letter) position. -/
def isSchemeChar (c : Char) : Bool :=
  c.isAlpha || c.isDigit || c == '+' || c == '-' || c == '.'

/-- C0 control or space, stripped from the ends of URL input. -/
def isC0OrSpace (c : Char) : Bool := c.toNat ≤ 32

/-- Forbidden host code points of the WHATWG URL standard. -/
def forbiddenHostChar (c : Char) : Bool :=
  c.toNat = 0 || c == '\t' || c == '\n' || c == '\r' || c == ' ' || c == '#' ||
  c == '/' || c == ':' || c == '<' || c == '>' || c == '?' || c == '@' ||
  c == '[' || c == '\\' || c == ']' || c == '^' || c == '|' || c == '%'

/-- Characters allowed inside an IPv6 literal. -/
def ipv6Char (c : Char) : Bool :=
  c.isDigit || ('a' ≤ c && c ≤ 'f') || ('A' ≤ c && c ≤ 'F') || c == ':' || c == '.'

/-- Portion of an authority after the last `@` (userinfo stripped). -/
def afterLastAt (l : List Char) : List Char :=
  ((splitOnCharL '@' l).getLast?).getD l

/-- Host parsing for special schemes: either a bracketed IPv6 literal or a
domain/IPv4 string, optionally followed by a decimal port. -/
def parseHost (auth : List Char) : Option String :=
  let hp := afterLastAt auth
  match hp with
  | '[' :: rest =>
    let inside := rest.takeWhile (· ≠ ']')
    match rest.dropWhile (· ≠ ']') with
    | ']' :: post =>
      let portOk := post.isEmpty ||
        (match post with
         | ':' :: ds => ds.all Char.isDigit
         | _ => false)
      if !inside.isEmpty && inside.all ipv6Char && inside.contains ':' && portOk then
        some ⟨'[' :: (inside.map charToLower) ++ [']']⟩
      else none
    | _ => none
  | _ =>
    let host := hp.takeWhile (· ≠ ':')
    let post := hp.dropWhile (· ≠ ':')
    let portOk := post.isEmpty ||
      (match post with
       | ':' :: ds => ds.all Char.isDigit
       | _ => false)
    if !host.isEmpty && !(host.any forbiddenHostChar) && portOk then
      some ⟨host.map charToLower⟩
    else none

/-- Model of `new URL(input)` with no base: `none` models a thrown
`TypeError`.  Special schemes get authority parsing; a non-special scheme
parses with an opaque path and empty hostname. -/
def parseURL (input : String) : Option JSURL :=
  let l := input.data.filter (fun c => !(c == '\t' || c == '\n' || c == '\r'))
  let l := ((l.dropWhile isC0OrSpace).reverse.dropWhile isC0OrSpace).reverse
  match l with
  | [] => none
  | c :: rest =>
    if c.isAlpha then
      let schemeRest := rest.takeWhile isSchemeChar
      match rest.dropWhile isSchemeChar with
      | ':' :: rem =>
        let scheme : String := ⟨(c :: schemeRest).map charToLower⟩
        if scheme == "http" || scheme == "https" || scheme == "ws" ||
            scheme == "wss" || scheme == "ftp" then
          let rem2 := rem.dropWhile (fun c => c == '/' || c == '\\')
          let auth := rem2.takeWhile (fun c => !(c == '/' || c == '\\' || c == '?' || c == '#'))
          match parseHost auth with
          | some h => some ⟨scheme ++ ":", h⟩
          | none => none
        else some ⟨scheme ++ ":", ""⟩
      | _ => none
    else none

/-! ### Configuration (environment variables) -/

/-- Environment configuration read once at module load, with the source's
defaults. -/
structure Config where
  ORIGIN_ALLOWLIST : String := ""
  ORIGIN_DENYLIST : String := ""
  REQUIRE_HEADER : String := ""
  API_KEY : String := ""
  CORS_MAX_AGE : String := "600"
  ENABLE_CREDENTIALS : String := "false"
  RATE_LIMIT : String := "0"
deriving DecidableEq, Repr

/-- Source `parseCSV`: split on commas, trim entries, drop empties. -/
def parseCSV (s : String) : List String :=
  ((splitOnChar ',' s).map trim).filter (fun x => x ≠ "")

/-- Derived `allowlist` set (as an ordered list). -/
def allowlist (cfg : Config) : List String := parseCSV cfg.ORIGIN_ALLOWLIST

/-- Derived `denylist` set (as an ordered list). -/
def denylist (cfg : Config) : List String := parseCSV cfg.ORIGIN_DENYLIST

/-- Derived `requiredHeaders` set: CSV entries lowercased. -/
def requiredHeaders (cfg : Config) : List String :=
  (parseCSV cfg.REQUIRE_HEADER).map lower

/-- Derived `credentials` flag: `ENABLE_CREDENTIALS.toLowerCase() === "true"`. -/
def credentials (cfg : Config) : Bool := lower cfg.ENABLE_CREDENTIALS == "true"

/-- Derived `rateLimitMax`: `Math.max(0, parseInt(RATE_LIMIT, 10) || 0)`. -/
def rateLimitMax (cfg : Config) : Nat :=
  ((jsParseInt cfg.RATE_LIMIT).getD 0).toNat

/-! ### Requests, responses, headers -/

/-- Inbound request as Node delivers it: `req.headers` keys arrive
lowercased, duplicates already joined, so plain key lookup models property
access. -/
structure Request where
  method : String
  url : String
  headers : List (String × String)
  body : String
  remoteAddress : Option String
deriving DecidableEq, Repr

/-- Property access `req.headers[k]`. -/
def reqHeader (req : Request) (k : String) : Option String :=
  (req.headers.find? (fun kv => kv.1 == k)).map (·.2)

/-- Key presence test `k in req.headers`. -/
def hasHeaderKey (req : Request) (k : String) : Bool :=
  (req.headers.find? (fun kv => kv.1 == k)).isSome

/-- Outbound response under construction: Node's `res` object.  The header
store is single-valued and case-insensitive (`setHeader` replaces). -/
structure Response where
  statusCode : Nat
  headers : List (String × String)
  body : String
deriving DecidableEq, Repr

/-- Fresh response object (Node's default status is 200). -/
def Response.empty : Response := ⟨200, [], ""⟩

/-- Model of `res.setHeader(k, v)`: case-insensitive replacement. -/
def setHeader (res : Response) (k v : String) : Response :=
  { res with
    headers := res.headers.filter (fun kv => !(lower kv.1 == lower k)) ++ [(k, v)] }

/-- Model of reading a response header, case-insensitively. -/
def getHeader (res : Response) (k : String) : Option String :=
  (res.headers.find? (fun kv => lower kv.1 == lower k)).map (·.2)

/-- Hop-by-hop header names (module-level constant of the source). -/
def hopByHopHeaders : List String :=
  ["connection", "proxy-connection", "keep-alive", "transfer-encoding",
   "upgrade", "te", "trailer", "proxy-authorization", "proxy-authenticate"]

/-- Membership test `hopByHopHeaders.has(k.toLowerCase())`. -/
def isHopByHop (k : String) : Bool := hopByHopHeaders.contains (lower k)

/-- Test of a header name against the case-insensitive source regex
matching names that begin with `access-control-`. -/
def acHeaderName (k : String) : Bool := sStartsWith (lower k) "access-control-"

/-- JSON string escaping for `JSON.stringify` on the message strings used
here. -/
def jsonEscapeChar (c : Char) : String :=
  if c = '"' then "\\\""
  else if c = '\\' then "\\\\"
  else if c = '\n' then "\\n"
  else if c = '\r' then "\\r"
  else if c = '\t' then "\\t"
  else String.singleton c

/-- JSON string escaping. -/
def jsonEscape (s : String) : String :=
  (s.data.map jsonEscapeChar).foldl (· ++ ·) ""

/-- Body produced by `JSON.stringify(\x7b error: msg \x7d)`. -/
def jsonError (msg : String) : String :=
  "\x7b\"error\":\"" ++ jsonEscape msg ++ "\"\x7d"

/-! ### Rate limiting -/

/-- Record of the `rlBucket` map. -/
structure RLRec where
  count : Nat
  reset : Nat
deriving DecidableEq, Repr

/-- Rate-limit window: 10 minutes in milliseconds. -/
def WINDOW_MS : Nat := 10 * 60 * 1000

/-- State of the in-memory `rlBucket` map. -/
abbrev RLState := List (String × RLRec)

/-- Map lookup `rlBucket.get(ip)`. -/
def rlLookup (st : RLState) (ip : String) : Option RLRec :=
  (List.find? (fun p => p.1 == ip) st).map (·.2)

/-- Map update `rlBucket.set(ip, r)`: replace in place or append. -/
def rlSet : RLState → String → RLRec → RLState
  | [], ip, r => [(ip, r)]
  | (k, v) :: rest, ip, r =>
    if k == ip then (k, r) :: rest else (k, v) :: rlSet rest ip r

/-- Source `rateLimitAllow(ip)`: counter per IP, reset to a fresh window
when the current time has passed the stored reset time, then incremented;
the request is admitted while the count stays within the threshold.  The
global `rateLimitMax`, `Date.now()` and `rlBucket` are explicit
parameters. -/
def rateLimitAllow (maxReq : Nat) (ip : String) (t : Nat) (st : RLState) :
    Bool × RLState :=
  if maxReq = 0 then (true, st)
  else
    let r0 := (rlLookup st ip).getD ⟨0, t + WINDOW_MS⟩
    let r1 := if t > r0.reset then (⟨0, t + WINDOW_MS⟩ : RLRec) else r0
    let r2 : RLRec := ⟨r1.count + 1, r1.reset⟩
    (decide (r2.count ≤ maxReq), rlSet st ip r2)

/-- Source `getClientIP(req)`: `x-real-ip`, else first `x-forwarded-for`
entry, else the socket peer address, else `"0.0.0.0"`, with JavaScript
truthiness at each step. -/
def getClientIP (req : Request) : String :=
  let xr := (reqHeader req "x-real-ip").getD ""
  if xr ≠ "" then xr
  else
    let xf := match reqHeader req "x-forwarded-for" with
      | some v => trim ((splitOnChar ',' v).headD "")
      | none => ""
    if xf ≠ "" then xf
    else
      match req.remoteAddress with
      | some a => if a ≠ "" then a else "0.0.0.0"
      | none => "0.0.0.0"

/-! ### Target resolution and validation -/

/-- Path-style target of the source `getTargetFromRequest`: the slice after
the first `/api/proxy/` in the raw `req.url`, `decodeURIComponent`-decoded
with the raw slice as fallback. -/
def pathStyleTarget (reqUrl : String) : String :=
  match afterMarker "/api/proxy/".data reqUrl.data with
  | some part =>
    if part.isEmpty then ""
    else
      match decodeURIComponentL part with
      | some d => ⟨d⟩
      | none => ⟨part⟩
  | none => ""

/-- Source `getTargetFromRequest(req)`: the `url` query parameter when
truthy, else the path-style form, else `""`. -/
def getTargetFromRequest (reqUrl : String) : String :=
  match searchParamGet reqUrl "url" with
  | some q => if q ≠ "" then q else pathStyleTarget reqUrl
  | none => pathStyleTarget reqUrl

/-- Source `isHttpHttps(urlStr)`: parse and check the protocol; a parse
failure yields `false`. -/
def isHttpHttps (urlStr : String) : Bool :=
  match parseURL urlStr with
  | some u => u.protocol == "http:" || u.protocol == "https:"
  | none => false

/-- Hostname test of `isBlockedPrivateHost`, applied to `u.hostname`:
literal localhost names, private IPv4 prefixes (including the
`172.16/12` second-octet range), and the `fc`/`fd` prefix test. -/
def blockedHostnameCheck (h : String) : Bool :=
  let lowerH := lower h
  if lowerH == "localhost" || lowerH == "0.0.0.0" || lowerH == "127.0.0.1" ||
      lowerH == "::1" then true
  else if sStartsWith lowerH "10." then true
  else if sStartsWith lowerH "192.168." then true
  else if regex172 lowerH then true
  else if sStartsWith lowerH "fc" || sStartsWith lowerH "fd" then true
  else false
where
  /-- Test for the source regex `^172\.(1[6-9]|2\d|3[0-1])\.`. -/
  regex172 (s : String) : Bool :=
    match s.data with
    | '1' :: '7' :: '2' :: '.' :: a :: b :: '.' :: _ =>
      (a == '1' && '6' ≤ b && b ≤ '9') || (a == '2' && b.isDigit) ||
      (a == '3' && (b == '0' || b == '1'))
    | _ => false

/-- Source `isBlockedPrivateHost(urlStr)`: hostname check on the parsed
URL; a parse failure returns `true` (fail closed). -/
def isBlockedPrivateHost (urlStr : String) : Bool :=
  match parseURL urlStr with
  | some u => blockedHostnameCheck u.hostname
  | none => true

/-! ### CORS reflection, preflight, errors -/

/-- Value of `req.headers.origin || "*"`. -/
def originHeaderValue (req : Request) : String :=
  match reqHeader req "origin" with
  | some v => if v ≠ "" then v else "*"
  | none => "*"

/-- Source `reflectCors(req, res)`. -/
def reflectCors (cfg : Config) (req : Request) (res : Response) : Response :=
  let res :=
    if credentials cfg then
      setHeader (setHeader (setHeader res
        "Access-Control-Allow-Origin" (originHeaderValue req))
        "Vary" "Origin")
        "Access-Control-Allow-Credentials" "true"
    else
      setHeader res "Access-Control-Allow-Origin" "*"
  setHeader res "Access-Control-Expose-Headers" "*"

/-- Value written into `Access-Control-Max-Age`:
`parseInt(CORS_MAX_AGE, 10) || 600`. -/
def corsMaxAgeVal (cfg : Config) : Int :=
  match jsParseInt cfg.CORS_MAX_AGE with
  | some n => if n = 0 then 600 else n
  | none => 600

/-- Source `preflight(req, res)`: reflect CORS, fixed method list, echo of a
truthy `Access-Control-Request-Headers`, max-age, status 204, empty body. -/
def preflight (cfg : Config) (req : Request) (res : Response) : Response :=
  let res := reflectCors cfg req res
  let res := setHeader res "Access-Control-Allow-Methods"
    "GET,HEAD,POST,PUT,PATCH,DELETE,OPTIONS"
  let res :=
    match reqHeader req "access-control-request-headers" with
    | some v => if v ≠ "" then setHeader res "Access-Control-Allow-Headers" v else res
    | none => res
  let res := setHeader res "Access-Control-Max-Age" (toString (corsMaxAgeVal cfg))
  { res with statusCode := 204, body := "" }

/-- Source `fail(res, code, msg)`: JSON error body on top of whatever
headers `res` already carries. -/
def fail (res : Response) (code : Nat) (msg : String) : Response :=
  { setHeader res "Content-Type" "application/json; charset=utf-8" with
    statusCode := code, body := jsonError msg }

/-! ### Forwarding -/

/-- Case-insensitive single-valued store of the `fetch` `Headers` class
(`Headers.set` normalizes names to lowercase). -/
def hSet (m : List (String × String)) (k v : String) : List (String × String) :=
  m.filter (fun kv => !(kv.1 == lower k)) ++ [(lower k, v)]

/-- Source `scrubRequestHeaders(headers)`: drop hop-by-hop names plus
`host`, `content-length`, `accept-encoding`; keep the rest. -/
def scrubRequestHeaders (headers : List (String × String)) :
    List (String × String) :=
  headers.foldl (fun out kv =>
    let lk := lower kv.1
    if isHopByHop lk then out
    else if lk == "host" || lk == "content-length" || lk == "accept-encoding" then out
    else hSet out kv.1 kv.2) []

/-- Source `scrubResponseHeaders(headers)`: drop hop-by-hop names. -/
def scrubResponseHeaders (headers : List (String × String)) :
    List (String × String) :=
  headers.filter (fun kv => !isHopByHop kv.1)

/-- Upstream response as delivered by `fetch` (header names arrive
lowercased from the `Headers` iterator). -/
structure UpstreamResponse where
  status : Nat
  headers : List (String × String)
  body : String
deriving DecidableEq, Repr

/-- Method passed to `fetch` (line 369 of the source). -/
def upstreamMethod (m : String) : String :=
  if m == "GET" || m == "HEAD" then m else if m ≠ "" then m else "GET"

/-- Init object of the outbound `fetch` call. -/
structure OutboundRequest where
  method : String
  headers : List (String × String)
  body : Option String
  redirect : String
deriving DecidableEq, Repr

/-- Outbound request built by the handler: scrubbed headers, buffered body
for non-GET/HEAD methods, manual redirect policy. -/
def upstreamFetchInit (req : Request) : OutboundRequest :=
  let method := upstreamMethod req.method
  { method := method
    headers := scrubRequestHeaders req.headers
    body := if method == "GET" || method == "HEAD" then none else some req.body
    redirect := "manual" }

/-- Oracle for the outbound `fetch` call: `.error` models a thrown fetch
error with its message. -/
def FetchFn := String → OutboundRequest → Except String UpstreamResponse

/-- Relay of an upstream response (source lines 392-407): copy status, copy
scrubbed headers while skipping upstream `access-control-*` names, re-apply
the proxy's CORS headers, send the upstream body. -/
def forwardResult (cfg : Config) (req : Request) (res : Response)
    (up : UpstreamResponse) : Response :=
  let res1 := { res with statusCode := up.status }
  let res2 := (scrubResponseHeaders up.headers).foldl
    (fun r kv => if acHeaderName kv.1 then r else setHeader r kv.1 kv.2) res1
  let res3 := reflectCors cfg req res2
  { res3 with body := up.body }

/-! ### The request handler -/

/-- Lowercased request origin used by the policy gate. -/
def requestOrigin (req : Request) : String :=
  lower ((reqHeader req "origin").getD "")

/-- First configured required header missing from the request. -/
def firstMissingHeader (cfg : Config) (req : Request) : Option String :=
  (requiredHeaders cfg).find? (fun rh => !(hasHeaderKey req rh))

/-- Source `handler(req, res)` as a pure function: given the configuration,
the request, the current time, the rate-limit state and the fetch oracle,
produce the response and the updated rate-limit state. -/
def handler (cfg : Config) (req : Request) (t : Nat) (rl : RLState)
    (doFetch : FetchFn) : Response × RLState :=
  if req.method = "OPTIONS" then
    (preflight cfg req (reflectCors cfg req Response.empty), rl)
  else
    let res0 := reflectCors cfg req Response.empty
    if denylist cfg ≠ [] ∧ requestOrigin req ∈ denylist cfg then
      (fail res0 403 "Origin denied.", rl)
    else if allowlist cfg ≠ [] ∧ requestOrigin req ∉ allowlist cfg then
      (fail res0 403 "Origin not allowed.", rl)
    else
      match firstMissingHeader cfg req with
      | some rh => (fail res0 400 ("Missing required header: " ++ rh), rl)
      | none =>
        if cfg.API_KEY ≠ "" ∧ (reqHeader req "x-proxy-key").getD "" ≠ cfg.API_KEY then
          (fail res0 401 "Invalid or missing API key.", rl)
        else
          let rlRes := rateLimitAllow (rateLimitMax cfg) (getClientIP req) t rl
          if rlRes.1 = false then
            (fail res0 429 "Rate limit exceeded. Try later.", rlRes.2)
          else
            let target := getTargetFromRequest req.url
            if target = "" then
              (fail res0 400 "Provide a target URL via ?url= or path /api/proxy/<url>.", rlRes.2)
            else if isHttpHttps target = false then
              (fail res0 400 "Only http(s) URLs are allowed.", rlRes.2)
            else if isBlockedPrivateHost target = true then
              (fail res0 403 "Target host is blocked.", rlRes.2)
            else
              match doFetch target (upstreamFetchInit req) with
              | .error e => (fail res0 502 ("Upstream fetch failed: " ++ e), rlRes.2)
              | .ok up => (forwardResult cfg req res0 up, rlRes.2)

/-! ### The cors-anywhere wrapper (`src/api/proxy.js`) -/

/-- Path-style target of the wrapper: regex match of
`\/api\/proxy\/(.+)` against the pathname, decoded with raw fallback. -/
def wrapperPathTarget (reqUrl : String) : String :=
  match afterMarker "/api/proxy/".data (pathnameOf reqUrl) with
  | some part =>
    if part.isEmpty then ""
    else
      match decodeURIComponentL part with
      | some d => ⟨d⟩
      | none => ⟨part⟩
  | none => ""

/-- Source `makeCorsAnywherePath(req)`: target from `?url=` or path style;
empty result unless the target starts with `http://` or `https://`
case-insensitively (the source regex). -/
def makeCorsAnywherePath (reqUrl : String) : String :=
  let target :=
    match searchParamGet reqUrl "url" with
    | some q => if q ≠ "" then q else wrapperPathTarget reqUrl
    | none => wrapperPathTarget reqUrl
  if target = "" then ""
  else if sStartsWith (lower target) "http://" || sStartsWith (lower target) "https://" then
    "/" ++ target
  else ""

/-- Outcome of the wrapper `module.exports`: an own response or delegation
to the cors-anywhere server with the rewritten path. -/
inductive WrapperOutcome where
  | response (r : Response)
  | delegated (path : String)
deriving DecidableEq, Repr

/-- Wrapper `module.exports` of `src/api/proxy.js` (the health-check routes
of the other wrapper variant are not part of this file): a missing or
non-http(s) target yields a bare 400 JSON error, otherwise the request is
delegated. -/
def wrapperHandler (reqUrl : String) : WrapperOutcome :=
  let p := makeCorsAnywherePath reqUrl
  if p = "" then
    .response
      { statusCode := 400
        headers := [("Content-Type", "application/json; charset=utf-8")]
        body := jsonError "Provide target via ?url= or /api/proxy/<url>, only http(s) allowed." }
  else .delegated p

/-! ### Header-store lemmas -/

/-- Searching for one name after the entries carrying a different name have
been filtered away gives the same result as searching the original list. -/
lemma find?_filter_ne (l : List (String × String)) (k q : String)
    (h : lower q ≠ lower k) :
    (l.filter (fun kv => !(lower kv.1 == lower k))).find?
        (fun kv => lower kv.1 == lower q) =
      l.find? (fun kv => lower kv.1 == lower q) := by
  induction l with
  | nil => rfl
  | cons x xs ih =>
    rw [List.filter_cons]
    by_cases hk : lower x.1 = lower k
    · have hkeep : (!(lower x.1 == lower k)) = false := by simp [hk]
      rw [hkeep]
      simp only [Bool.false_eq_true, if_false]
      have hq : ¬((fun kv : String × String => lower kv.1 == lower q) x = true) := by
        simp only [beq_iff_eq, hk]
        exact fun hh => h hh.symm
      rw [@List.find?_cons_of_neg _ (fun kv => lower kv.1 == lower q) x xs hq]
      exact ih
    · have hkeep : (!(lower x.1 == lower k)) = true := by simp [hk]
      rw [hkeep]
      simp only [if_true]
      by_cases hq : lower x.1 = lower q
      · rw [@List.find?_cons_of_pos _ (fun kv => lower kv.1 == lower q) x
            (List.filter (fun kv => !(lower kv.1 == lower k)) xs) (by simp [hq]),
          @List.find?_cons_of_pos _ (fun kv => lower kv.1 == lower q) x xs (by simp [hq])]
      · rw [@List.find?_cons_of_neg _ (fun kv => lower kv.1 == lower q) x
            (List.filter (fun kv => !(lower kv.1 == lower k)) xs) (by simp [hq]),
          @List.find?_cons_of_neg _ (fun kv => lower kv.1 == lower q) x xs (by simp [hq])]
        exact ih

/-- Reading after `setHeader`: the written name (case-insensitively) wins,
any other name is unchanged. -/
lemma getHeader_setHeader (r : Response) (k v q : String) :
    getHeader (setHeader r k v) q =
      if lower q = lower k then some v else getHeader r q := by
  unfold getHeader setHeader
  simp only [List.find?_append]
  by_cases h : lower q = lower k
  · have h1 : (r.headers.filter (fun kv => !(lower kv.1 == lower k))).find?
        (fun kv => lower kv.1 == lower q) = none := by
      rw [List.find?_eq_none]
      intro x hx
      rw [List.mem_filter] at hx
      have hx2 := hx.2
      simp only [Bool.not_eq_true', beq_eq_false_iff_ne] at hx2
      simp only [beq_iff_eq, h]
      exact hx2
    rw [h1]
    simp [List.find?, h]
  · rw [if_neg h]
    have h2 : List.find? (fun kv => lower kv.1 == lower q) [(k, v)] = none := by
      simp only [List.find?]
      have : (lower k == lower q) = false := by
        simp only [beq_eq_false_iff_ne]
        exact fun hh => h hh.symm
      simp [this]
    rw [h2, find?_filter_ne _ _ _ h]
    cases r.headers.find? (fun kv => lower kv.1 == lower q) <;> rfl

/-- Reading a fresh response yields nothing. -/
lemma getHeader_empty (q : String) : getHeader Response.empty q = none := rfl

/-- Headers are untouched by a record update of the body or status. -/
lemma getHeader_withBody (r : Response) (s : Nat) (b : String) (q : String) :
    getHeader { r with statusCode := s, body := b } q = getHeader r q := rfl

/-- Reading through `reflectCors`: the proxy's own CORS names, then the
underlying response. -/
lemma getHeader_reflectCors (cfg : Config) (req : Request) (r : Response) (q : String) :
    getHeader (reflectCors cfg req r) q =
      if lower q = "access-control-expose-headers" then some "*"
      else if credentials cfg = true then
        if lower q = "access-control-allow-credentials" then some "true"
        else if lower q = "vary" then some "Origin"
        else if lower q = "access-control-allow-origin" then some (originHeaderValue req)
        else getHeader r q
      else
        if lower q = "access-control-allow-origin" then some "*"
        else getHeader r q := by
  have e1 : lower "Access-Control-Expose-Headers" = "access-control-expose-headers" := by decide
  have e2 : lower "Access-Control-Allow-Credentials" = "access-control-allow-credentials" := by decide
  have e3 : lower "Vary" = "vary" := by decide
  have e4 : lower "Access-Control-Allow-Origin" = "access-control-allow-origin" := by decide
  unfold reflectCors
  by_cases hc : credentials cfg
  · simp only [hc, if_true]
    rw [getHeader_setHeader, getHeader_setHeader, getHeader_setHeader, getHeader_setHeader,
      e1, e2, e3, e4]
  · simp only [hc, if_false, Bool.false_eq_true]
    rw [getHeader_setHeader, getHeader_setHeader, e1, e4]

/-- Last copied value for a name in the upstream header copy loop. -/
def findCopyVal (l : List (String × String)) (q : String) : Option String :=
  (l.reverse.find? (fun kv => !acHeaderName kv.1 && (lower kv.1 == lower q))).map (·.2)

/-- Reading after the upstream header copy loop (skip `access-control-*`,
`setHeader` the rest): last matching copied value wins, else the base. -/
lemma getHeader_copyFold (l : List (String × String)) (r0 : Response) (q : String) :
    getHeader (l.foldl
      (fun r kv => if acHeaderName kv.1 then r else setHeader r kv.1 kv.2) r0) q =
      (findCopyVal l q).or (getHeader r0 q) := by
  induction l generalizing r0 with
  | nil => simp [findCopyVal]
  | cons kv rest ih =>
    simp only [List.foldl_cons]
    rw [ih]
    unfold findCopyVal
    simp only [List.reverse_cons, List.find?_append]
    cases hf : rest.reverse.find? (fun kv => !acHeaderName kv.1 && (lower kv.1 == lower q)) with
    | some p => simp [hf]
    | none =>
      simp only [hf, Option.none_or, Option.map_none']
      by_cases hac : acHeaderName kv.1
      · simp [List.find?, hac]
      · by_cases hq : lower kv.1 = lower q
        · rw [if_neg hac, getHeader_setHeader, if_pos hq.symm]
          simp [List.find?, hac, hq]
        · rw [if_neg hac, getHeader_setHeader, if_neg (fun hh => hq hh.symm)]
          have : (!acHeaderName kv.1 && (lower kv.1 == lower q)) = false := by
            simp [hq]
          simp [List.find?, this]

/-- Enumeration of the lowercased hop-by-hop names. -/
lemma isHopByHop_cases (k : String) (h : isHopByHop k = true) :
    lower k = "connection" ∨ lower k = "proxy-connection" ∨ lower k = "keep-alive" ∨
    lower k = "transfer-encoding" ∨ lower k = "upgrade" ∨ lower k = "te" ∨
    lower k = "trailer" ∨ lower k = "proxy-authorization" ∨
    lower k = "proxy-authenticate" := by
  unfold isHopByHop hopByHopHeaders at h
  have : lower k ∈ ["connection", "proxy-connection", "keep-alive",
      "transfer-encoding", "upgrade", "te", "trailer", "proxy-authorization",
      "proxy-authenticate"] := by simpa using h
  simpa using this

/-- Hop-by-hop names are distinct from the proxy's CORS header names. -/
lemma hop_ne_cors (k : String) (h : isHopByHop k = true) :
    lower k ≠ "access-control-expose-headers" ∧
    lower k ≠ "access-control-allow-credentials" ∧
    lower k ≠ "vary" ∧ lower k ≠ "access-control-allow-origin" := by
  rcases isHopByHop_cases k h with h | h | h | h | h | h | h | h | h <;>
    exact ⟨by rw [h]; decide, by rw [h]; decide, by rw [h]; decide, by rw [h]; decide⟩

/-- The hop-by-hop test only depends on the lowercased name. -/
lemma isHopByHop_congr {a b : String} (h : lower a = lower b) :
    isHopByHop a = isHopByHop b := by
  unfold isHopByHop
  rw [h]

/-- The access-control prefix test only depends on the lowercased name. -/
lemma acHeaderName_congr {a b : String} (h : lower a = lower b) :
    acHeaderName a = acHeaderName b := by
  unfold acHeaderName
  rw [h]

/-! ### Rate-limit state lemmas -/

/-- Setting one key leaves every other key of the bucket unchanged. -/
lemma rlLookup_rlSet_ne (st : RLState) (ip ip2 : String) (r : RLRec)
    (h : ip2 ≠ ip) : rlLookup (rlSet st ip r) ip2 = rlLookup st ip2 := by
  induction st with
  | nil =>
    have hb : (ip == ip2) = false := by simpa using (Ne.symm h)
    simp [rlSet, rlLookup, List.find?, hb]
  | cons p rest ih =>
    obtain ⟨k, v⟩ := p
    simp only [rlSet]
    by_cases hk : k = ip
    · have hb : (k == ip) = true := by simpa using hk
      rw [hb]
      simp only [if_true, rlLookup, List.find?]
      have : (k == ip2) = false := by
        simp only [beq_eq_false_iff_ne]
        intro hh
        exact h (hh ▸ hk)
      simp [this]
    · have hb : (k == ip) = false := by simpa using hk
      rw [hb]
      simp only [Bool.false_eq_true, if_false, rlLookup, List.find?]
      by_cases hk2 : k = ip2
      · have : (k == ip2) = true := by simpa using hk2
        simp [this]
      · have : (k == ip2) = false := by simpa using hk2
        simp only [this]
        exact ih

/-- Setting a key makes it readable. -/
lemma rlLookup_rlSet_self (st : RLState) (ip : String) (r : RLRec) :
    rlLookup (rlSet st ip r) ip = some r := by
  induction st with
  | nil => simp [rlSet, rlLookup, List.find?]
  | cons p rest ih =>
    obtain ⟨k, v⟩ := p
    simp only [rlSet]
    by_cases hk : k = ip
    · have hb : (k == ip) = true := by simpa using hk
      rw [hb]
      simp [rlLookup, List.find?, hb]
    · have hb : (k == ip) = false := by simpa using hk
      rw [hb]
      simp only [Bool.false_eq_true, if_false, rlLookup, List.find?, hb]
      exact ih

/-- A rate-limit step for one IP does not touch another IP's record. -/
lemma rateLimitAllow_other (maxReq : Nat) (ip ip2 : String) (t : Nat)
    (st : RLState) (h : ip2 ≠ ip) :
    rlLookup (rateLimitAllow maxReq ip t st).2 ip2 = rlLookup st ip2 := by
  unfold rateLimitAllow
  by_cases hm : maxReq = 0
  · simp [hm]
  · simp only [hm, if_false]
    exact rlLookup_rlSet_ne _ _ _ _ h

/-- A rate-limit step for one IP does not change the admission decision of
a later step for a different IP. -/
lemma rateLimitAllow_decision_other (maxReq : Nat) (ip ip2 : String)
    (t t2 : Nat) (st : RLState) (h : ip2 ≠ ip) :
    (rateLimitAllow maxReq ip2 t2 (rateLimitAllow maxReq ip t st).2).1 =
      (rateLimitAllow maxReq ip2 t2 st).1 := by
  by_cases hm : maxReq = 0
  · simp [rateLimitAllow, hm]
  · conv_lhs => rw [rateLimitAllow]
    conv_rhs => rw [rateLimitAllow]
    simp only [hm, if_false, rateLimitAllow_other maxReq ip ip2 t st h]

/-- When the stored window has elapsed, the counter restarts at 1 in a new
window before the admission decision is taken. -/
lemma rateLimitAllow_window_reset (maxReq : Nat) (ip : String) (t : Nat)
    (st : RLState) (r : RLRec) (hm : maxReq ≠ 0)
    (hl : rlLookup st ip = some r) (ht : t > r.reset) :
    (rateLimitAllow maxReq ip t st).1 = decide (1 ≤ maxReq) ∧
      rlLookup (rateLimitAllow maxReq ip t st).2 ip =
        some ⟨1, t + WINDOW_MS⟩ := by
  unfold rateLimitAllow
  simp only [hm, if_false, hl, Option.getD_some, ht, if_pos ht]
  exact ⟨rfl, rlLookup_rlSet_self _ _ _⟩

/-! ### Handler branch lemmas -/

/-- OPTIONS short-circuit of the handler. -/
lemma handler_options (cfg : Config) (req : Request) (t : Nat) (rl : RLState)
    (f : FetchFn) (hm : req.method = "OPTIONS") :
    handler cfg req t rl f =
      (preflight cfg req (reflectCors cfg req Response.empty), rl) := by
  unfold handler
  rw [if_pos hm]

/-- Origin-denylist rejection branch. -/
lemma handler_deny (cfg : Config) (req : Request) (t : Nat) (rl : RLState)
    (f : FetchFn) (hm : ¬req.method = "OPTIONS")
    (h : denylist cfg ≠ [] ∧ requestOrigin req ∈ denylist cfg) :
    handler cfg req t rl f =
      (fail (reflectCors cfg req Response.empty) 403 "Origin denied.", rl) := by
  unfold handler
  rw [if_neg hm]
  simp only []
  rw [if_pos h]

/-- Origin-allowlist rejection branch. -/
lemma handler_allow (cfg : Config) (req : Request) (t : Nat) (rl : RLState)
    (f : FetchFn) (hm : ¬req.method = "OPTIONS")
    (hd : ¬(denylist cfg ≠ [] ∧ requestOrigin req ∈ denylist cfg))
    (h : allowlist cfg ≠ [] ∧ requestOrigin req ∉ allowlist cfg) :
    handler cfg req t rl f =
      (fail (reflectCors cfg req Response.empty) 403 "Origin not allowed.", rl) := by
  unfold handler
  rw [if_neg hm]
  simp only []
  rw [if_neg hd, if_pos h]

/-- Missing-required-header rejection branch. -/
lemma handler_missing_header (cfg : Config) (req : Request) (t : Nat)
    (rl : RLState) (f : FetchFn) (rh : String) (hm : ¬req.method = "OPTIONS")
    (hd : ¬(denylist cfg ≠ [] ∧ requestOrigin req ∈ denylist cfg))
    (ha : ¬(allowlist cfg ≠ [] ∧ requestOrigin req ∉ allowlist cfg))
    (h : firstMissingHeader cfg req = some rh) :
    handler cfg req t rl f =
      (fail (reflectCors cfg req Response.empty) 400
        ("Missing required header: " ++ rh), rl) := by
  unfold handler
  rw [if_neg hm]
  simp only []
  rw [if_neg hd, if_neg ha, h]

/-- API-key rejection branch. -/
lemma handler_key (cfg : Config) (req : Request) (t : Nat) (rl : RLState)
    (f : FetchFn) (hm : ¬req.method = "OPTIONS")
    (hd : ¬(denylist cfg ≠ [] ∧ requestOrigin req ∈ denylist cfg))
    (ha : ¬(allowlist cfg ≠ [] ∧ requestOrigin req ∉ allowlist cfg))
    (hr : firstMissingHeader cfg req = none)
    (h : cfg.API_KEY ≠ "" ∧ (reqHeader req "x-proxy-key").getD "" ≠ cfg.API_KEY) :
    handler cfg req t rl f =
      (fail (reflectCors cfg req Response.empty) 401
        "Invalid or missing API key.", rl) := by
  unfold handler
  rw [if_neg hm]
  simp only []
  rw [if_neg hd, if_neg ha, hr]
  simp only []
  rw [if_pos h]

/-- Rate-limit rejection branch: the counter has already been consumed. -/
lemma handler_rate (cfg : Config) (req : Request) (t : Nat) (rl : RLState)
    (f : FetchFn) (hm : ¬req.method = "OPTIONS")
    (hd : ¬(denylist cfg ≠ [] ∧ requestOrigin req ∈ denylist cfg))
    (ha : ¬(allowlist cfg ≠ [] ∧ requestOrigin req ∉ allowlist cfg))
    (hr : firstMissingHeader cfg req = none)
    (hk : ¬(cfg.API_KEY ≠ "" ∧ (reqHeader req "x-proxy-key").getD "" ≠ cfg.API_KEY))
    (h : (rateLimitAllow (rateLimitMax cfg) (getClientIP req) t rl).1 = false) :
    handler cfg req t rl f =
      (fail (reflectCors cfg req Response.empty) 429
        "Rate limit exceeded. Try later.",
       (rateLimitAllow (rateLimitMax cfg) (getClientIP req) t rl).2) := by
  unfold handler
  rw [if_neg hm]
  simp only []
  rw [if_neg hd, if_neg ha, hr]
  simp only []
  rw [if_neg hk]
  rw [if_pos h]

/-- Missing-target rejection branch. -/
lemma handler_missing_target (cfg : Config) (req : Request) (t : Nat)
    (rl : RLState) (f : FetchFn) (hm : ¬req.method = "OPTIONS")
    (hd : ¬(denylist cfg ≠ [] ∧ requestOrigin req ∈ denylist cfg))
    (ha : ¬(allowlist cfg ≠ [] ∧ requestOrigin req ∉ allowlist cfg))
    (hr : firstMissingHeader cfg req = none)
    (hk : ¬(cfg.API_KEY ≠ "" ∧ (reqHeader req "x-proxy-key").getD "" ≠ cfg.API_KEY))
    (hq : (rateLimitAllow (rateLimitMax cfg) (getClientIP req) t rl).1 = true)
    (h : getTargetFromRequest req.url = "") :
    handler cfg req t rl f =
      (fail (reflectCors cfg req Response.empty) 400
        "Provide a target URL via ?url= or path /api/proxy/<url>.",
       (rateLimitAllow (rateLimitMax cfg) (getClientIP req) t rl).2) := by
  unfold handler
  rw [if_neg hm]
  simp only []
  rw [if_neg hd, if_neg ha, hr]
  simp only []
  rw [if_neg hk]
  rw [if_neg (by simp [hq] : ¬(rateLimitAllow (rateLimitMax cfg) (getClientIP req) t rl).1 = false), if_pos h]

/-- Non-http(s) or unparseable target rejection branch. -/
lemma handler_bad_scheme (cfg : Config) (req : Request) (t : Nat)
    (rl : RLState) (f : FetchFn) (hm : ¬req.method = "OPTIONS")
    (hd : ¬(denylist cfg ≠ [] ∧ requestOrigin req ∈ denylist cfg))
    (ha : ¬(allowlist cfg ≠ [] ∧ requestOrigin req ∉ allowlist cfg))
    (hr : firstMissingHeader cfg req = none)
    (hk : ¬(cfg.API_KEY ≠ "" ∧ (reqHeader req "x-proxy-key").getD "" ≠ cfg.API_KEY))
    (hq : (rateLimitAllow (rateLimitMax cfg) (getClientIP req) t rl).1 = true)
    (ht : getTargetFromRequest req.url ≠ "")
    (h : isHttpHttps (getTargetFromRequest req.url) = false) :
    handler cfg req t rl f =
      (fail (reflectCors cfg req Response.empty) 400
        "Only http(s) URLs are allowed.",
       (rateLimitAllow (rateLimitMax cfg) (getClientIP req) t rl).2) := by
  unfold handler
  rw [if_neg hm]
  simp only []
  rw [if_neg hd, if_neg ha, hr]
  simp only []
  rw [if_neg hk]
  rw [if_neg (by simp [hq] : ¬(rateLimitAllow (rateLimitMax cfg) (getClientIP req) t rl).1 = false), if_neg ht, if_pos h]

/-- Blocked-private-host rejection branch. -/
lemma handler_blocked (cfg : Config) (req : Request) (t : Nat)
    (rl : RLState) (f : FetchFn) (hm : ¬req.method = "OPTIONS")
    (hd : ¬(denylist cfg ≠ [] ∧ requestOrigin req ∈ denylist cfg))
    (ha : ¬(allowlist cfg ≠ [] ∧ requestOrigin req ∉ allowlist cfg))
    (hr : firstMissingHeader cfg req = none)
    (hk : ¬(cfg.API_KEY ≠ "" ∧ (reqHeader req "x-proxy-key").getD "" ≠ cfg.API_KEY))
    (hq : (rateLimitAllow (rateLimitMax cfg) (getClientIP req) t rl).1 = true)
    (ht : getTargetFromRequest req.url ≠ "")
    (hs : isHttpHttps (getTargetFromRequest req.url) = true)
    (h : isBlockedPrivateHost (getTargetFromRequest req.url) = true) :
    handler cfg req t rl f =
      (fail (reflectCors cfg req Response.empty) 403 "Target host is blocked.",
       (rateLimitAllow (rateLimitMax cfg) (getClientIP req) t rl).2) := by
  unfold handler
  rw [if_neg hm]
  simp only []
  rw [if_neg hd, if_neg ha, hr]
  simp only []
  rw [if_neg hk]
  rw [if_neg (by simp [hq] : ¬(rateLimitAllow (rateLimitMax cfg) (getClientIP req) t rl).1 = false), if_neg ht, if_neg (by simp [hs]), if_pos h]

/-- Upstream-failure branch. -/
lemma handler_fetch_error (cfg : Config) (req : Request) (t : Nat)
    (rl : RLState) (f : FetchFn) (e : String) (hm : ¬req.method = "OPTIONS")
    (hd : ¬(denylist cfg ≠ [] ∧ requestOrigin req ∈ denylist cfg))
    (ha : ¬(allowlist cfg ≠ [] ∧ requestOrigin req ∉ allowlist cfg))
    (hr : firstMissingHeader cfg req = none)
    (hk : ¬(cfg.API_KEY ≠ "" ∧ (reqHeader req "x-proxy-key").getD "" ≠ cfg.API_KEY))
    (hq : (rateLimitAllow (rateLimitMax cfg) (getClientIP req) t rl).1 = true)
    (ht : getTargetFromRequest req.url ≠ "")
    (hs : isHttpHttps (getTargetFromRequest req.url) = true)
    (hb : isBlockedPrivateHost (getTargetFromRequest req.url) = false)
    (h : f (getTargetFromRequest req.url) (upstreamFetchInit req) = .error e) :
    handler cfg req t rl f =
      (fail (reflectCors cfg req Response.empty) 502
        ("Upstream fetch failed: " ++ e),
       (rateLimitAllow (rateLimitMax cfg) (getClientIP req) t rl).2) := by
  unfold handler
  rw [if_neg hm]
  simp only []
  rw [if_neg hd, if_neg ha, hr]
  simp only []
  rw [if_neg hk]
  rw [if_neg (by simp [hq] : ¬(rateLimitAllow (rateLimitMax cfg) (getClientIP req) t rl).1 = false), if_neg ht, if_neg (by simp [hs]), if_neg (by simp [hb]), h]

/-- Successful forwarding branch. -/
lemma handler_forward (cfg : Config) (req : Request) (t : Nat)
    (rl : RLState) (f : FetchFn) (up : UpstreamResponse)
    (hm : ¬req.method = "OPTIONS")
    (hd : ¬(denylist cfg ≠ [] ∧ requestOrigin req ∈ denylist cfg))
    (ha : ¬(allowlist cfg ≠ [] ∧ requestOrigin req ∉ allowlist cfg))
    (hr : firstMissingHeader cfg req = none)
    (hk : ¬(cfg.API_KEY ≠ "" ∧ (reqHeader req "x-proxy-key").getD "" ≠ cfg.API_KEY))
    (hq : (rateLimitAllow (rateLimitMax cfg) (getClientIP req) t rl).1 = true)
    (ht : getTargetFromRequest req.url ≠ "")
    (hs : isHttpHttps (getTargetFromRequest req.url) = true)
    (hb : isBlockedPrivateHost (getTargetFromRequest req.url) = false)
    (h : f (getTargetFromRequest req.url) (upstreamFetchInit req) = .ok up) :
    handler cfg req t rl f =
      (forwardResult cfg req (reflectCors cfg req Response.empty) up,
       (rateLimitAllow (rateLimitMax cfg) (getClientIP req) t rl).2) := by
  unfold handler
  rw [if_neg hm]
  simp only []
  rw [if_neg hd, if_neg ha, hr]
  simp only []
  rw [if_neg hk]
  rw [if_neg (by simp [hq] : ¬(rateLimitAllow (rateLimitMax cfg) (getClientIP req) t rl).1 = false), if_neg ht, if_neg (by simp [hs]), if_neg (by simp [hb]), h]

/-! ### Concrete fixtures -/

/-- Default configuration: every environment variable unset. -/
def cfgDefault : Config := {}

/-- Configuration with a rate limit of 2 requests per window. -/
def cfgRL : Config := { RATE_LIMIT := "2" }

/-- Configuration with credentials mode enabled. -/
def cfgCred : Config := { ENABLE_CREDENTIALS := "true" }

/-- Fetch oracle answering 200/`ok` to every outbound call. -/
def fetch200 : FetchFn := fun _ _ => .ok ⟨200, [], "ok"⟩

/-- Fetch oracle that throws on every outbound call. -/
def fetchFail : FetchFn := fun _ _ => .error "boom"

/-- Plain GET request targeting `http://[::1]/`. -/
def reqV6 : Request := ⟨"GET", "/api/proxy?url=http://[::1]/", [], "", some "9.9.9.9"⟩

/-- Plain GET request targeting `http://127.0.0.1/x`. -/
def req127 : Request := ⟨"GET", "/api/proxy?url=http://127.0.0.1/x", [], "", none⟩

/-- Plain GET request with an unparseable target. -/
def reqBad : Request := ⟨"GET", "/api/proxy?url=notaurl", [], "", none⟩

/-- Plain GET request with a public target and no Origin header. -/
def reqNoOrigin : Request := ⟨"GET", "/api/proxy?url=http://example.com/", [], "", none⟩

/-- Plain GET request with a public target and an Origin header. -/
def reqOrigin : Request :=
  ⟨"GET", "/api/proxy?url=http://example.com/", [("origin", "https://app.example")], "", none⟩

/-- Plain GET request targeting `http://fcdn.example.com/`. -/
def reqFc : Request := ⟨"GET", "/api/proxy?url=http://fcdn.example.com/", [], "", none⟩

/-- The 400 response of the cors-anywhere wrapper for a missing target. -/
def wrapper400 : Response :=
  ⟨400, [("Content-Type", "application/json; charset=utf-8")],
   jsonError "Provide target via ?url= or /api/proxy/<url>, only http(s) allowed."⟩

/-! ### C1 -/

/-- C1: the spec asserts the Target Validator rejects every private or
loopback hostname, listing `::1` and `fd00::1` among them, with 403.  The
IPv4 and name parts hold (`localhost`, `0.0.0.0`, `127.0.0.1`, `10.`,
`192.168.`, `172.16`–`172.31` prefixes are rejected, a public address is
accepted, case-insensitively and purely syntactically), but the WHATWG URL
parser serializes an IPv6 host in square brackets, so
`new URL("http://[::1]/").hostname` is `"[::1]"`: the source's `"::1"`
equality and `fc`/`fd` prefix checks never fire on an IPv6 literal, the
guard accepts `http://[::1]/` and `http://[fd00::1]/`, and such a request
is forwarded (here with upstream status 200) instead of being rejected
with 403. -/
theorem c1_private_host_guard_ipv6_gap :
    parseURL "http://[::1]/" = some ⟨"http:", "[::1]"⟩ ∧
    isBlockedPrivateHost "http://[::1]/" = false ∧
    isBlockedPrivateHost "http://[fd00::1]/" = false ∧
    (handler cfgDefault reqV6 0 [] fetch200).1.statusCode = 200 ∧
    isBlockedPrivateHost "http://localhost/" = true ∧
    isBlockedPrivateHost "http://LOCALHOST/" = true ∧
    isBlockedPrivateHost "http://0.0.0.0/" = true ∧
    isBlockedPrivateHost "http://127.0.0.1/" = true ∧
    isBlockedPrivateHost "http://10.1.2.3/" = true ∧
    isBlockedPrivateHost "http://192.168.1.1/" = true ∧
    isBlockedPrivateHost "http://172.20.0.5/" = true ∧
    isBlockedPrivateHost "http://172.15.0.5/" = false ∧
    isBlockedPrivateHost "http://93.184.216.34/" = false ∧
    (handler cfgDefault req127 0 [] fetch200).1.statusCode = 403 ∧
    (handler cfgDefault req127 0 [] fetch200).1.body = jsonError "Target host is blocked." := by
  decide

/-! ### C6 -/

/-- C6 counterexample: the target `notaurl` fails to parse, and the claim
says it is rejected as BlockedTarget with status 403; the handler actually
rejects it with status 400 and the InvalidScheme message, because
`isHttpHttps` already returns `false` on a parse failure and its check runs
first. -/
theorem c6_unparseable_target_gets_400 :
    parseURL "notaurl" = none ∧
    (handler cfgDefault reqBad 0 [] fetchFail).1.statusCode = 400 ∧
    (handler cfgDefault reqBad 0 [] fetchFail).1.body =
      jsonError "Only http(s) URLs are allowed." := by
  decide

/-- C6 (amended): a target string that fails to parse is rejected with
status 400 and the scheme-check message `Only http(s) URLs are allowed.`,
because `isHttpHttps` treats a parse failure as `false` and its check runs
before the blocked-host check; the fail-closed `true` of
`isBlockedPrivateHost` on a parse failure is unreachable for such
targets. -/
theorem c6_parse_failure_rejected_400 (cfg : Config) (req : Request)
    (t : Nat) (rl : RLState) (f : FetchFn) (hm : ¬req.method = "OPTIONS")
    (hd : ¬(denylist cfg ≠ [] ∧ requestOrigin req ∈ denylist cfg))
    (ha : ¬(allowlist cfg ≠ [] ∧ requestOrigin req ∉ allowlist cfg))
    (hr : firstMissingHeader cfg req = none)
    (hk : ¬(cfg.API_KEY ≠ "" ∧ (reqHeader req "x-proxy-key").getD "" ≠ cfg.API_KEY))
    (hq : (rateLimitAllow (rateLimitMax cfg) (getClientIP req) t rl).1 = true)
    (ht : getTargetFromRequest req.url ≠ "")
    (hp : parseURL (getTargetFromRequest req.url) = none) :
    handler cfg req t rl f =
      (fail (reflectCors cfg req Response.empty) 400 "Only http(s) URLs are allowed.",
       (rateLimitAllow (rateLimitMax cfg) (getClientIP req) t rl).2) ∧
    isHttpHttps (getTargetFromRequest req.url) = false ∧
    isBlockedPrivateHost (getTargetFromRequest req.url) = true := by
  have hs : isHttpHttps (getTargetFromRequest req.url) = false := by
    unfold isHttpHttps
    rw [hp]
  have hb : isBlockedPrivateHost (getTargetFromRequest req.url) = true := by
    unfold isBlockedPrivateHost
    rw [hp]
  exact ⟨handler_bad_scheme cfg req t rl f hm hd ha hr hk hq ht hs, hs, hb⟩

/-- C6 witness: the amended statement evaluated on the `notaurl` request. -/
theorem c6_parse_failure_rejected_400_witness :
    handler cfgDefault reqBad 0 [] fetchFail =
      (fail (reflectCors cfgDefault reqBad Response.empty) 400
        "Only http(s) URLs are allowed.",
       (rateLimitAllow (rateLimitMax cfgDefault) (getClientIP reqBad) 0 []).2) := by
  exact (c6_parse_failure_rejected_400 cfgDefault reqBad 0 [] fetchFail
    (by decide) (by decide) (by decide) (by decide) (by decide) (by decide)
    (by decide) (by decide)).1

/-! ### C7 -/

/-- C7: the spec asserts that in credentials mode every response carries
`Access-Control-Allow-Origin` equal to the literal request Origin and never
`*`, including for requests without an Origin header; but the source
computes `req.headers.origin || "*"`, so a credentials-mode response to a
request with no Origin header carries `Access-Control-Allow-Origin: *`
together with `Access-Control-Allow-Credentials: true`, contradicting both
the spec and the source's own comment that `*` must not be used.  When an
Origin header is present the literal reflection, `Vary: Origin` and the
credentials header behave as specified. -/
theorem c7_credentials_missing_origin_wildcard :
    credentials cfgCred = true ∧
    getHeader (handler cfgCred reqNoOrigin 0 [] fetch200).1
      "Access-Control-Allow-Origin" = some "*" ∧
    getHeader (handler cfgCred reqNoOrigin 0 [] fetch200).1
      "Access-Control-Allow-Credentials" = some "true" ∧
    getHeader (handler cfgCred reqOrigin 0 [] fetch200).1
      "Access-Control-Allow-Origin" = some "https://app.example" ∧
    getHeader (handler cfgCred reqOrigin 0 [] fetch200).1 "Vary" = some "Origin" ∧
    getHeader (handler cfgCred reqOrigin 0 [] fetch200).1
      "Access-Control-Allow-Credentials" = some "true" := by
  decide

/-! ### C9 -/

/-- C9 counterexample: the claim says the `fc`/`fd` rule causes rejection
only for IPv6 literals, and that a domain such as `fcdn.example.com` is not
rejected by it.  The source tests `hostname.startsWith("fc"/"fd")` on the
raw hostname, so `http://fcdn.example.com/` is rejected (403) although it
is not an IPv6 literal — and no other guard rule matches this hostname. -/
theorem c9_fc_prefix_domain_blocked :
    parseURL "http://fcdn.example.com/" = some ⟨"http:", "fcdn.example.com"⟩ ∧
    isBlockedPrivateHost "http://fcdn.example.com/" = true ∧
    (lower "fcdn.example.com" == "localhost" || lower "fcdn.example.com" == "0.0.0.0" ||
     lower "fcdn.example.com" == "127.0.0.1" || lower "fcdn.example.com" == "::1") = false ∧
    sStartsWith (lower "fcdn.example.com") "10." = false ∧
    sStartsWith (lower "fcdn.example.com") "192.168." = false ∧
    blockedHostnameCheck.regex172 (lower "fcdn.example.com") = false ∧
    sStartsWith (lower "fcdn.example.com") "fc" = true ∧
    (handler cfgDefault reqFc 0 [] fetch200).1.statusCode = 403 := by
  decide

/-! ### C8 -/

/-- C8 counterexample: the claim says every error response carries the CORS
headers; the cors-anywhere wrapper's MissingTarget 400 response (cited in
the claim's sources) is a single-field JSON error but carries no
`Access-Control-*` header at all. -/
theorem c8_wrapper_missing_target_no_cors :
    wrapperHandler "/api/proxy" = .response wrapper400 ∧
    wrapper400.statusCode = 400 ∧
    wrapper400.body =
      jsonError "Provide target via ?url= or /api/proxy/<url>, only http(s) allowed." ∧
    getHeader wrapper400 "Access-Control-Allow-Origin" = none ∧
    getHeader wrapper400 "Access-Control-Allow-Credentials" = none ∧
    getHeader wrapper400 "Access-Control-Expose-Headers" = none := by
  decide

/-! ### C3 -/

/-- C3: the policy gate runs in the fixed order denylist (403), allowlist
(403, only when non-empty), required headers (400, first missing wins),
API key (401), rate limit (429); the first failing check yields exactly its
error response, and for the first four checks the rate-limit state is
returned unchanged (the rate limiter never ran), while a rate-limit
rejection returns the consumed counter state. -/
theorem c3_policy_gate_order :
    (∀ (cfg : Config) (req : Request) (t : Nat) (rl : RLState) (f : FetchFn),
      ¬req.method = "OPTIONS" →
      denylist cfg ≠ [] ∧ requestOrigin req ∈ denylist cfg →
      handler cfg req t rl f =
        (fail (reflectCors cfg req Response.empty) 403 "Origin denied.", rl)) ∧
    (∀ (cfg : Config) (req : Request) (t : Nat) (rl : RLState) (f : FetchFn),
      ¬req.method = "OPTIONS" →
      ¬(denylist cfg ≠ [] ∧ requestOrigin req ∈ denylist cfg) →
      allowlist cfg ≠ [] ∧ requestOrigin req ∉ allowlist cfg →
      handler cfg req t rl f =
        (fail (reflectCors cfg req Response.empty) 403 "Origin not allowed.", rl)) ∧
    (∀ (cfg : Config) (req : Request) (t : Nat) (rl : RLState) (f : FetchFn)
      (rh : String), ¬req.method = "OPTIONS" →
      ¬(denylist cfg ≠ [] ∧ requestOrigin req ∈ denylist cfg) →
      ¬(allowlist cfg ≠ [] ∧ requestOrigin req ∉ allowlist cfg) →
      firstMissingHeader cfg req = some rh →
      handler cfg req t rl f =
        (fail (reflectCors cfg req Response.empty) 400
          ("Missing required header: " ++ rh), rl)) ∧
    (∀ (cfg : Config) (req : Request) (t : Nat) (rl : RLState) (f : FetchFn),
      ¬req.method = "OPTIONS" →
      ¬(denylist cfg ≠ [] ∧ requestOrigin req ∈ denylist cfg) →
      ¬(allowlist cfg ≠ [] ∧ requestOrigin req ∉ allowlist cfg) →
      firstMissingHeader cfg req = none →
      cfg.API_KEY ≠ "" ∧ (reqHeader req "x-proxy-key").getD "" ≠ cfg.API_KEY →
      handler cfg req t rl f =
        (fail (reflectCors cfg req Response.empty) 401
          "Invalid or missing API key.", rl)) ∧
    (∀ (cfg : Config) (req : Request) (t : Nat) (rl : RLState) (f : FetchFn),
      ¬req.method = "OPTIONS" →
      ¬(denylist cfg ≠ [] ∧ requestOrigin req ∈ denylist cfg) →
      ¬(allowlist cfg ≠ [] ∧ requestOrigin req ∉ allowlist cfg) →
      firstMissingHeader cfg req = none →
      ¬(cfg.API_KEY ≠ "" ∧ (reqHeader req "x-proxy-key").getD "" ≠ cfg.API_KEY) →
      (rateLimitAllow (rateLimitMax cfg) (getClientIP req) t rl).1 = false →
      handler cfg req t rl f =
        (fail (reflectCors cfg req Response.empty) 429
          "Rate limit exceeded. Try later.",
         (rateLimitAllow (rateLimitMax cfg) (getClientIP req) t rl).2)) :=
  ⟨handler_deny, handler_allow,
   fun cfg req t rl f rh hm hd ha h => handler_missing_header cfg req t rl f rh hm hd ha h,
   handler_key, handler_rate⟩

/-- Configuration with a denylisted origin. -/
def cfgDeny : Config := { ORIGIN_DENYLIST := "https://evil.example" }

/-- Configuration with an allowlist not containing the test origin. -/
def cfgAllow : Config := { ORIGIN_ALLOWLIST := "https://good.example" }

/-- Configuration requiring the `x-requested-with` header. -/
def cfgReqHdr : Config := { REQUIRE_HEADER := "x-requested-with" }

/-- Configuration with an API key. -/
def cfgKey : Config := { API_KEY := "sekret" }

/-- Request from the denylisted origin. -/
def reqEvil : Request :=
  ⟨"GET", "/api/proxy?url=http://example.com/", [("origin", "https://evil.example")], "", none⟩

/-- C3 witness: each of the five gate branches evaluated on a concrete
configuration and request. -/
theorem c3_policy_gate_order_witness :
    handler cfgDeny reqEvil 0 [] fetch200 =
      (fail (reflectCors cfgDeny reqEvil Response.empty) 403 "Origin denied.", []) ∧
    handler cfgAllow reqEvil 0 [] fetch200 =
      (fail (reflectCors cfgAllow reqEvil Response.empty) 403 "Origin not allowed.", []) ∧
    handler cfgReqHdr reqNoOrigin 0 [] fetch200 =
      (fail (reflectCors cfgReqHdr reqNoOrigin Response.empty) 400
        "Missing required header: x-requested-with", []) ∧
    handler cfgKey reqNoOrigin 0 [] fetch200 =
      (fail (reflectCors cfgKey reqNoOrigin Response.empty) 401
        "Invalid or missing API key.", []) ∧
    handler cfgRL reqNoOrigin 0 [("0.0.0.0", ⟨2, 600000⟩)] fetch200 =
      (fail (reflectCors cfgRL reqNoOrigin Response.empty) 429
        "Rate limit exceeded. Try later.",
       (rateLimitAllow (rateLimitMax cfgRL) (getClientIP reqNoOrigin) 0
         [("0.0.0.0", ⟨2, 600000⟩)]).2) := by
  refine ⟨?_, ?_, ?_, ?_, ?_⟩
  · exact c3_policy_gate_order.1 cfgDeny reqEvil 0 [] fetch200 (by decide) (by decide)
  · exact c3_policy_gate_order.2.1 cfgAllow reqEvil 0 [] fetch200 (by decide)
      (by decide) (by decide)
  · exact c3_policy_gate_order.2.2.1 cfgReqHdr reqNoOrigin 0 [] fetch200
      "x-requested-with" (by decide) (by decide) (by decide) (by decide)
  · exact c3_policy_gate_order.2.2.2.1 cfgKey reqNoOrigin 0 [] fetch200
      (by decide) (by decide) (by decide) (by decide) (by decide)
  · exact c3_policy_gate_order.2.2.2.2 cfgRL reqNoOrigin 0
      [("0.0.0.0", ⟨2, 600000⟩)] fetch200 (by decide) (by decide) (by decide)
      (by decide) (by decide) (by decide)

/-! ### C4 -/

/-- Request from IP `1.2.3.4` with a public target. -/
def reqIpA : Request :=
  ⟨"GET", "/api/proxy?url=http://example.com/get", [("x-real-ip", "1.2.3.4")], "", none⟩

/-- Request from IP `5.6.7.8` with a public target. -/
def reqIpB : Request :=
  ⟨"GET", "/api/proxy?url=http://example.com/get", [("x-real-ip", "5.6.7.8")], "", none⟩

/-- C4: with threshold 2, three requests from the same derived IP inside
one window yield statuses 200, 200, 429 (the upstream call succeeding), and
a fourth request from a different IP still gets 200; moreover a rate-limit
step for one IP never touches another IP's record or decision, and once the
stored window has elapsed the counter restarts at 1 in a new window before
the admission decision. -/
theorem c4_rate_limit_behaviour :
    ((handler cfgRL reqIpA 0 [] fetch200).1.statusCode = 200 ∧
     (handler cfgRL reqIpA 0 (handler cfgRL reqIpA 0 [] fetch200).2 fetch200).1.statusCode = 200 ∧
     (handler cfgRL reqIpA 0
       (handler cfgRL reqIpA 0 (handler cfgRL reqIpA 0 [] fetch200).2 fetch200).2
       fetch200).1.statusCode = 429 ∧
     (handler cfgRL reqIpB 0
       (handler cfgRL reqIpA 0
         (handler cfgRL reqIpA 0 (handler cfgRL reqIpA 0 [] fetch200).2 fetch200).2
         fetch200).2 fetch200).1.statusCode = 200) ∧
    (∀ (maxReq : Nat) (ip ip2 : String) (t t2 : Nat) (st : RLState), ip2 ≠ ip →
      rlLookup (rateLimitAllow maxReq ip t st).2 ip2 = rlLookup st ip2 ∧
      (rateLimitAllow maxReq ip2 t2 (rateLimitAllow maxReq ip t st).2).1 =
        (rateLimitAllow maxReq ip2 t2 st).1) ∧
    (∀ (maxReq : Nat) (ip : String) (t : Nat) (st : RLState) (r : RLRec),
      maxReq ≠ 0 → rlLookup st ip = some r → t > r.reset →
      (rateLimitAllow maxReq ip t st).1 = decide (1 ≤ maxReq) ∧
      rlLookup (rateLimitAllow maxReq ip t st).2 ip = some ⟨1, t + WINDOW_MS⟩) := by
  refine ⟨by decide, ?_, ?_⟩
  · intro maxReq ip ip2 t t2 st h
    exact ⟨rateLimitAllow_other maxReq ip ip2 t st h,
      rateLimitAllow_decision_other maxReq ip ip2 t t2 st h⟩
  · intro maxReq ip t st r hm hl ht
    exact rateLimitAllow_window_reset maxReq ip t st r hm hl ht

/-- C4 witness: the quantified parts evaluated on concrete states — a step
for `1.2.3.4` leaves `5.6.7.8` untouched, and a step at time 600001 against
a window that reset at 600000 restarts the counter at 1. -/
theorem c4_rate_limit_behaviour_witness :
    (rlLookup (rateLimitAllow 2 "1.2.3.4" 0 [("5.6.7.8", ⟨1, 600000⟩)]).2 "5.6.7.8" =
      rlLookup [("5.6.7.8", ⟨1, 600000⟩)] "5.6.7.8" ∧
     (rateLimitAllow 2 "5.6.7.8" 0
        (rateLimitAllow 2 "1.2.3.4" 0 [("5.6.7.8", ⟨1, 600000⟩)]).2).1 =
      (rateLimitAllow 2 "5.6.7.8" 0 [("5.6.7.8", ⟨1, 600000⟩)]).1) ∧
    ((rateLimitAllow 2 "1.2.3.4" 600001 [("1.2.3.4", ⟨2, 600000⟩)]).1 = decide (1 ≤ 2) ∧
     rlLookup (rateLimitAllow 2 "1.2.3.4" 600001 [("1.2.3.4", ⟨2, 600000⟩)]).2 "1.2.3.4" =
       some ⟨1, 600001 + WINDOW_MS⟩) := by
  refine ⟨?_, ?_⟩
  · exact c4_rate_limit_behaviour.2.1 2 "1.2.3.4" "5.6.7.8" 0 0
      [("5.6.7.8", ⟨1, 600000⟩)] (by decide)
  · exact c4_rate_limit_behaviour.2.2 2 "1.2.3.4" 600001
      [("1.2.3.4", ⟨2, 600000⟩)] ⟨2, 600000⟩ (by decide) (by decide) (by decide)

/-! ### C5 -/

/-- C5: every OPTIONS request is answered by the preflight response — status
204, empty body, the fixed `Access-Control-Allow-Methods` list, the
configured (default 600) `Access-Control-Max-Age`, a truthy inbound
`Access-Control-Request-Headers` echoed into
`Access-Control-Allow-Headers` (absent otherwise) — the rate-limit state
is returned untouched and the result does not depend on the fetch oracle
(no forwarding is performed). -/
theorem c5_preflight_semantics (cfg : Config) (req : Request) (t : Nat)
    (rl : RLState) (f : FetchFn) (hm : req.method = "OPTIONS") :
    handler cfg req t rl f =
      (preflight cfg req (reflectCors cfg req Response.empty), rl) ∧
    (handler cfg req t rl f).1.statusCode = 204 ∧
    (handler cfg req t rl f).1.body = "" ∧
    getHeader (handler cfg req t rl f).1 "Access-Control-Allow-Methods" =
      some "GET,HEAD,POST,PUT,PATCH,DELETE,OPTIONS" ∧
    getHeader (handler cfg req t rl f).1 "Access-Control-Max-Age" =
      some (toString (corsMaxAgeVal cfg)) ∧
    (∀ v, reqHeader req "access-control-request-headers" = some v → v ≠ "" →
      getHeader (handler cfg req t rl f).1 "Access-Control-Allow-Headers" = some v) ∧
    (reqHeader req "access-control-request-headers" = none →
      getHeader (handler cfg req t rl f).1 "Access-Control-Allow-Headers" = none) ∧
    (handler cfg req t rl f).2 = rl ∧
    (∀ f2 : FetchFn, handler cfg req t rl f2 = handler cfg req t rl f) := by
  have he := handler_options cfg req t rl f hm
  refine ⟨he, ?_, ?_, ?_, ?_, ?_, ?_, ?_, ?_⟩
  · rw [he]
    rfl
  · rw [he]
    rfl
  · rw [he]
    dsimp only
    unfold preflight
    cases hv : reqHeader req "access-control-request-headers" with
    | none =>
      simp only [hv]
      rw [getHeader_withBody, getHeader_setHeader, getHeader_setHeader]
      simp +decide
    | some v =>
      simp only [hv]
      by_cases hve : v = ""
      · rw [if_neg (by simp [hve])]
        rw [getHeader_withBody, getHeader_setHeader, getHeader_setHeader]
        simp +decide
      · rw [if_pos hve]
        rw [getHeader_withBody, getHeader_setHeader, getHeader_setHeader,
          getHeader_setHeader]
        simp +decide
  · rw [he]
    dsimp only
    unfold preflight
    cases hv : reqHeader req "access-control-request-headers" with
    | none =>
      simp only [hv]
      rw [getHeader_withBody, getHeader_setHeader]
      simp +decide
    | some v =>
      simp only [hv]
      by_cases hve : v = ""
      · rw [if_neg (by simp [hve])]
        rw [getHeader_withBody, getHeader_setHeader]
        simp +decide
      · rw [if_pos hve]
        rw [getHeader_withBody, getHeader_setHeader]
        simp +decide
  · intro v hv hne
    rw [he]
    dsimp only
    unfold preflight
    simp only [hv]
    rw [if_pos hne, getHeader_withBody, getHeader_setHeader, getHeader_setHeader]
    simp +decide
  · intro hv
    rw [he]
    dsimp only
    unfold preflight
    simp only [hv]
    rw [getHeader_withBody, getHeader_setHeader, getHeader_setHeader,
      getHeader_reflectCors, getHeader_reflectCors, getHeader_empty]
    simp +decide
  · rw [he]
  · intro f2
    rw [handler_options cfg req t rl f2 hm, he]

/-- OPTIONS preflight request carrying `Access-Control-Request-Headers`. -/
def reqOpt : Request :=
  ⟨"OPTIONS", "/api/proxy?url=http://example.com/",
   [("access-control-request-headers", "x-custom")], "", none⟩

/-- C5 witness: the preflight semantics evaluated on a concrete OPTIONS
request with `Access-Control-Request-Headers: x-custom`. -/
theorem c5_preflight_semantics_witness :
    (handler cfgDefault reqOpt 0 [] fetchFail).1.statusCode = 204 ∧
    (handler cfgDefault reqOpt 0 [] fetchFail).1.body = "" ∧
    getHeader (handler cfgDefault reqOpt 0 [] fetchFail).1
      "Access-Control-Allow-Methods" = some "GET,HEAD,POST,PUT,PATCH,DELETE,OPTIONS" ∧
    getHeader (handler cfgDefault reqOpt 0 [] fetchFail).1
      "Access-Control-Max-Age" = some (toString (corsMaxAgeVal cfgDefault)) ∧
    getHeader (handler cfgDefault reqOpt 0 [] fetchFail).1
      "Access-Control-Allow-Headers" = some "x-custom" ∧
    (handler cfgDefault reqOpt 0 [] fetchFail).2 = [] := by
  have h := c5_preflight_semantics cfgDefault reqOpt 0 [] fetchFail (by decide)
  exact ⟨h.2.1, h.2.2.1, h.2.2.2.1, h.2.2.2.2.1,
    h.2.2.2.2.2.1 "x-custom" (by decide) (by decide), h.2.2.2.2.2.2.2.1⟩

/-! ### C10 -/

/-- C10: for an OPTIONS request the preflight outcome is independent of the
origin denylist and allowlist, the required headers, the API key, the
rate-limit configuration and state, the time, and the fetch oracle: two
configurations agreeing only on `ENABLE_CREDENTIALS` and `CORS_MAX_AGE`
produce the same response, and neither invocation touches its rate-limit
state — so a denylisted origin, an unauthenticated client, or a
rate-limited IP still receives a successful preflight. -/
theorem c10_preflight_ignores_policy (cfg1 cfg2 : Config) (req : Request)
    (t1 t2 : Nat) (rl1 rl2 : RLState) (f1 f2 : FetchFn)
    (hm : req.method = "OPTIONS")
    (hc : cfg1.ENABLE_CREDENTIALS = cfg2.ENABLE_CREDENTIALS)
    (hma : cfg1.CORS_MAX_AGE = cfg2.CORS_MAX_AGE) :
    (handler cfg1 req t1 rl1 f1).1 = (handler cfg2 req t2 rl2 f2).1 ∧
    (handler cfg1 req t1 rl1 f1).2 = rl1 ∧
    (handler cfg2 req t2 rl2 f2).2 = rl2 := by
  have hcred : credentials cfg1 = credentials cfg2 := by
    unfold credentials
    rw [hc]
  have hmax : corsMaxAgeVal cfg1 = corsMaxAgeVal cfg2 := by
    unfold corsMaxAgeVal
    rw [hma]
  rw [handler_options cfg1 req t1 rl1 f1 hm, handler_options cfg2 req t2 rl2 f2 hm]
  refine ⟨?_, rfl, rfl⟩
  dsimp only
  unfold preflight reflectCors
  rw [hcred, hmax]

/-- OPTIONS preflight request from a denylisted origin. -/
def reqOptEvil : Request :=
  ⟨"OPTIONS", "/api/proxy?url=http://example.com/",
   [("origin", "https://evil.example")], "", none⟩

/-- C10 witness: a denylisting configuration and the default configuration
give the same preflight to the denylisted origin, regardless of rate-limit
state, time and fetch oracle, and neither touches its rate-limit state. -/
theorem c10_preflight_ignores_policy_witness :
    (handler cfgDeny reqOptEvil 0 [] fetchFail).1 =
      (handler cfgDefault reqOptEvil 7 [("1.2.3.4", ⟨9, 1⟩)] fetch200).1 ∧
    (handler cfgDeny reqOptEvil 0 [] fetchFail).2 = [] ∧
    (handler cfgDefault reqOptEvil 7 [("1.2.3.4", ⟨9, 1⟩)] fetch200).2 =
      [("1.2.3.4", ⟨9, 1⟩)] :=
  c10_preflight_ignores_policy cfgDeny cfgDefault reqOptEvil 0 7 []
    [("1.2.3.4", ⟨9, 1⟩)] fetchFail fetch200 (by decide) (by decide) (by decide)

/-! ### Forwarding lemmas -/

/-- Status is untouched by `setHeader`. -/
lemma statusCode_setHeader (r : Response) (k v : String) :
    (setHeader r k v).statusCode = r.statusCode := rfl

/-- Status is untouched by `reflectCors`. -/
lemma statusCode_reflectCors (cfg : Config) (req : Request) (r : Response) :
    (reflectCors cfg req r).statusCode = r.statusCode := by
  unfold reflectCors
  by_cases hc : credentials cfg <;> simp [hc, statusCode_setHeader]

/-- Status is untouched by the upstream header copy loop. -/
lemma statusCode_copyFold (l : List (String × String)) (r0 : Response) :
    (l.foldl (fun r kv => if acHeaderName kv.1 then r else setHeader r kv.1 kv.2)
      r0).statusCode = r0.statusCode := by
  induction l generalizing r0 with
  | nil => rfl
  | cons kv rest ih =>
    rw [List.foldl_cons, ih]
    by_cases hac : acHeaderName kv.1 <;> simp [hac, statusCode_setHeader]

/-- Headers are untouched by a record update of the status. -/
lemma getHeader_setStatus (r : Response) (s : Nat) (q : String) :
    getHeader { r with statusCode := s } q = getHeader r q := rfl

/-- The forwarded response carries the upstream status. -/
lemma forwardResult_statusCode (cfg : Config) (req : Request) (res : Response)
    (up : UpstreamResponse) :
    (forwardResult cfg req res up).statusCode = up.status := by
  unfold forwardResult
  dsimp only
  rw [statusCode_reflectCors, statusCode_copyFold]

/-- The forwarded response carries the upstream body verbatim. -/
lemma forwardResult_body (cfg : Config) (req : Request) (res : Response)
    (up : UpstreamResponse) :
    (forwardResult cfg req res up).body = up.body := rfl

/-- Header reads on the forwarded response go through the CORS reflection
over the copy loop. -/
lemma getHeader_forwardResult (cfg : Config) (req : Request) (res : Response)
    (up : UpstreamResponse) (q : String) :
    getHeader (forwardResult cfg req res up) q =
      getHeader (reflectCors cfg req ((scrubResponseHeaders up.headers).foldl
        (fun r kv => if acHeaderName kv.1 then r else setHeader r kv.1 kv.2)
        { res with statusCode := up.status })) q := rfl

/-- In a list whose lowercased names are distinct, the copy-loop search for
a contained non-access-control entry returns exactly its value. -/
lemma find?_key_unique (m : List (String × String)) (k v : String)
    (hnd : (m.map (fun kv => lower kv.1)).Nodup)
    (hmem : (k, v) ∈ m) (hac : acHeaderName k = false) :
    (m.find? (fun kv => !acHeaderName kv.1 && (lower kv.1 == lower k))).map (·.2) =
      some v := by
  induction m with
  | nil => cases hmem
  | cons x xs ih =>
    rw [List.map_cons] at hnd
    have hx_notin := (List.nodup_cons.mp hnd).1
    have hnd' := (List.nodup_cons.mp hnd).2
    by_cases hx : lower x.1 = lower k
    · have hacx : acHeaderName x.1 = false := by
        rw [acHeaderName_congr hx]
        exact hac
      have hpx : ((fun kv : String × String =>
          !acHeaderName kv.1 && (lower kv.1 == lower k)) x) = true := by
        simp [hacx, hx]
      rw [@List.find?_cons_of_pos _
        (fun kv => !acHeaderName kv.1 && (lower kv.1 == lower k)) x xs hpx]
      rcases List.mem_cons.mp hmem with hxe | hxs
      · rw [← hxe]
        rfl
      · exfalso
        apply hx_notin
        rw [hx]
        exact List.mem_map.mpr ⟨(k, v), hxs, rfl⟩
    · have hpx : ¬(((fun kv : String × String =>
          !acHeaderName kv.1 && (lower kv.1 == lower k)) x) = true) := by
        simp [hx]
      rw [@List.find?_cons_of_neg _
        (fun kv => !acHeaderName kv.1 && (lower kv.1 == lower k)) x xs hpx]
      rcases List.mem_cons.mp hmem with hxe | hxs
      · exact absurd (by rw [← hxe] : lower x.1 = lower k) hx
      · exact ih hnd' hxs

/-- Copy-loop search finds nothing under a hop-by-hop name, since the list
was scrubbed of them. -/
lemma findCopyVal_scrub_hop (up : UpstreamResponse) (k : String)
    (hk : isHopByHop k = true) :
    findCopyVal (scrubResponseHeaders up.headers) k = none := by
  unfold findCopyVal
  have : (scrubResponseHeaders up.headers).reverse.find?
      (fun kv => !acHeaderName kv.1 && (lower kv.1 == lower k)) = none := by
    rw [List.find?_eq_none]
    intro kv hkv hpred
    rw [List.mem_reverse] at hkv
    have hnothop := (List.mem_filter.mp hkv).2
    simp only [Bool.and_eq_true] at hpred
    have hlow : lower kv.1 = lower k := beq_iff_eq.mp hpred.2
    rw [isHopByHop_congr hlow, hk] at hnothop
    simp at hnothop
  rw [this]
  rfl

/-- Copy-loop search finds nothing under an access-control name, since the
loop skips them. -/
lemma findCopyVal_ac (up : UpstreamResponse) (k : String)
    (hk : acHeaderName k = true) :
    findCopyVal (scrubResponseHeaders up.headers) k = none := by
  unfold findCopyVal
  have : (scrubResponseHeaders up.headers).reverse.find?
      (fun kv => !acHeaderName kv.1 && (lower kv.1 == lower k)) = none := by
    rw [List.find?_eq_none]
    intro kv hkv hpred
    simp only [Bool.and_eq_true] at hpred
    have hnac := hpred.1
    have hlow : lower kv.1 = lower k := beq_iff_eq.mp hpred.2
    rw [Bool.not_eq_true'] at hnac
    rw [acHeaderName_congr hlow, hk] at hnac
    cases hnac
  rw [this]
  rfl

/-! ### C2 -/

/-- C2: the Forwarder relays the upstream status and body verbatim, carries
the outbound call with the manual-redirect policy (redirects are not
auto-followed, so a 302 and its `Location` header are passed through by the
verbatim clauses), removes every hop-by-hop header, drops upstream
`access-control-*` headers in favour of the proxy's own CORS headers
(`Access-Control-Allow-Origin` and `Access-Control-Expose-Headers` are
present with the proxy's values), and relays every other upstream header
verbatim — except that in credentials mode the proxy's own `Vary: Origin`
header overrides an upstream `Vary`. -/
theorem c2_forwarder_relay :
    (∀ (cfg : Config) (req : Request) (up : UpstreamResponse),
      (forwardResult cfg req (reflectCors cfg req Response.empty) up).statusCode =
        up.status ∧
      (forwardResult cfg req (reflectCors cfg req Response.empty) up).body =
        up.body) ∧
    (∀ req : Request, (upstreamFetchInit req).redirect = "manual") ∧
    (∀ (cfg : Config) (req : Request) (up : UpstreamResponse) (k : String),
      isHopByHop k = true →
      getHeader (forwardResult cfg req (reflectCors cfg req Response.empty) up) k =
        none) ∧
    (∀ (cfg : Config) (req : Request) (up : UpstreamResponse),
      getHeader (forwardResult cfg req (reflectCors cfg req Response.empty) up)
        "Access-Control-Allow-Origin" =
        some (if credentials cfg then originHeaderValue req else "*") ∧
      getHeader (forwardResult cfg req (reflectCors cfg req Response.empty) up)
        "Access-Control-Expose-Headers" = some "*") ∧
    (∀ (cfg : Config) (req : Request) (up : UpstreamResponse) (k : String),
      acHeaderName k = true →
      getHeader (forwardResult cfg req (reflectCors cfg req Response.empty) up) k =
        getHeader (reflectCors cfg req Response.empty) k) ∧
    (∀ (cfg : Config) (req : Request) (up : UpstreamResponse) (k v : String),
      (up.headers.map (fun kv => lower kv.1)).Nodup →
      (k, v) ∈ up.headers →
      isHopByHop k = false →
      acHeaderName k = false →
      (lower k ≠ "vary" ∨ credentials cfg = false) →
      getHeader (forwardResult cfg req (reflectCors cfg req Response.empty) up) k =
        some v) := by
  refine ⟨fun cfg req up => ⟨forwardResult_statusCode cfg req _ up,
    forwardResult_body cfg req _ up⟩, fun req => rfl, ?_, ?_, ?_, ?_⟩
  · -- hop-by-hop headers are absent
    intro cfg req up k hk
    obtain ⟨h1, h2, h3, h4⟩ := hop_ne_cors k hk
    have hR0 : getHeader (reflectCors cfg req Response.empty) k = none := by
      rw [getHeader_reflectCors, if_neg h1]
      by_cases hc : credentials cfg = true
      · rw [if_pos hc, if_neg h2, if_neg h3, if_neg h4, getHeader_empty]
      · rw [if_neg hc, if_neg h4, getHeader_empty]
    have hmid : getHeader ((scrubResponseHeaders up.headers).foldl
        (fun r kv => if acHeaderName kv.1 then r else setHeader r kv.1 kv.2)
        { reflectCors cfg req Response.empty with statusCode := up.status }) k =
        none := by
      rw [getHeader_copyFold, findCopyVal_scrub_hop up k hk]
      simp only [Option.none_or]
      rw [getHeader_setStatus]
      exact hR0
    rw [getHeader_forwardResult, getHeader_reflectCors, if_neg h1]
    by_cases hc : credentials cfg = true
    · rw [if_pos hc, if_neg h2, if_neg h3, if_neg h4]
      exact hmid
    · rw [if_neg hc, if_neg h4]
      exact hmid
  · -- the proxy's own CORS headers are present
    intro cfg req up
    constructor
    · rw [getHeader_forwardResult, getHeader_reflectCors]
      by_cases hc : credentials cfg = true <;> simp +decide [hc]
    · rw [getHeader_forwardResult, getHeader_reflectCors]
      simp +decide
  · -- upstream access-control headers never leak
    intro cfg req up k hac
    have hfc := findCopyVal_ac up k hac
    rw [getHeader_forwardResult, getHeader_reflectCors, getHeader_reflectCors]
    by_cases h1 : lower k = "access-control-expose-headers"
    · rw [if_pos h1, if_pos h1]
    · rw [if_neg h1, if_neg h1]
      by_cases hc : credentials cfg = true
      · rw [if_pos hc, if_pos hc]
        by_cases h2 : lower k = "access-control-allow-credentials"
        · rw [if_pos h2, if_pos h2]
        · rw [if_neg h2, if_neg h2]
          by_cases h3 : lower k = "vary"
          · rw [if_pos h3, if_pos h3]
          · rw [if_neg h3, if_neg h3]
            by_cases h4 : lower k = "access-control-allow-origin"
            · rw [if_pos h4, if_pos h4]
            · rw [if_neg h4, if_neg h4]
              rw [getHeader_copyFold, hfc]
              simp only [Option.none_or]
              rw [getHeader_setStatus, getHeader_reflectCors]
              rw [if_neg h1, if_pos hc, if_neg h2, if_neg h3, if_neg h4]
      · rw [if_neg hc, if_neg hc]
        by_cases h4 : lower k = "access-control-allow-origin"
        · rw [if_pos h4, if_pos h4]
        · rw [if_neg h4, if_neg h4]
          rw [getHeader_copyFold, hfc]
          simp only [Option.none_or]
          rw [getHeader_setStatus, getHeader_reflectCors]
          rw [if_neg h1, if_neg hc, if_neg h4]
  · -- all other upstream headers are relayed verbatim
    intro cfg req up k v hnd hmem hhop hac hvary
    have hne1 : lower k ≠ "access-control-expose-headers" := by
      intro h
      have : acHeaderName k = true := by
        unfold acHeaderName
        rw [h]
        decide
      rw [this] at hac
      cases hac
    have hne2 : lower k ≠ "access-control-allow-credentials" := by
      intro h
      have : acHeaderName k = true := by
        unfold acHeaderName
        rw [h]
        decide
      rw [this] at hac
      cases hac
    have hne4 : lower k ≠ "access-control-allow-origin" := by
      intro h
      have : acHeaderName k = true := by
        unfold acHeaderName
        rw [h]
        decide
      rw [this] at hac
      cases hac
    have hsome : findCopyVal (scrubResponseHeaders up.headers) k = some v := by
      unfold findCopyVal
      apply find?_key_unique
      · rw [List.map_reverse, List.nodup_reverse]
        exact List.Nodup.sublist ((List.filter_sublist up.headers).map
          (fun kv => lower kv.1)) hnd
      · rw [List.mem_reverse]
        exact List.mem_filter.mpr ⟨hmem, by simp [hhop]⟩
      · exact hac
    rw [getHeader_forwardResult, getHeader_reflectCors, if_neg hne1]
    by_cases hc : credentials cfg = true
    · have hv : lower k ≠ "vary" := by
        rcases hvary with h | h
        · exact h
        · rw [h] at hc
          cases hc
      rw [if_pos hc, if_neg hne2, if_neg hv, if_neg hne4]
      rw [getHeader_copyFold, hsome]
      rfl
    · rw [if_neg hc, if_neg hne4]
      rw [getHeader_copyFold, hsome]
      rfl

/-- Upstream response with a test header, hop-by-hop headers, a rogue
access-control header and a Location header. -/
def up1 : UpstreamResponse :=
  ⟨302, [("x-test", "1"), ("transfer-encoding", "chunked"),
    ("connection", "keep-alive"), ("access-control-allow-origin", "evil"),
    ("location", "https://other.example/")], "abc"⟩

/-- C2 witness: the relay properties evaluated on a concrete upstream 302
response with header `x-test`, hop-by-hop headers, a rogue upstream
`Access-Control-Allow-Origin` and a `Location` header. -/
theorem c2_forwarder_relay_witness :
    (forwardResult cfgDefault reqIpA (reflectCors cfgDefault reqIpA Response.empty)
      up1).statusCode = up1.status ∧
    (forwardResult cfgDefault reqIpA (reflectCors cfgDefault reqIpA Response.empty)
      up1).body = up1.body ∧
    (upstreamFetchInit reqIpA).redirect = "manual" ∧
    getHeader (forwardResult cfgDefault reqIpA
      (reflectCors cfgDefault reqIpA Response.empty) up1) "transfer-encoding" = none ∧
    getHeader (forwardResult cfgDefault reqIpA
      (reflectCors cfgDefault reqIpA Response.empty) up1) "connection" = none ∧
    getHeader (forwardResult cfgDefault reqIpA
      (reflectCors cfgDefault reqIpA Response.empty) up1) "Access-Control-Allow-Origin" =
      some (if credentials cfgDefault then originHeaderValue reqIpA else "*") ∧
    getHeader (forwardResult cfgDefault reqIpA
      (reflectCors cfgDefault reqIpA Response.empty) up1) "x-test" = some "1" ∧
    getHeader (forwardResult cfgDefault reqIpA
      (reflectCors cfgDefault reqIpA Response.empty) up1) "location" =
      some "https://other.example/" := by
  refine ⟨(c2_forwarder_relay.1 cfgDefault reqIpA up1).1,
    (c2_forwarder_relay.1 cfgDefault reqIpA up1).2,
    c2_forwarder_relay.2.1 reqIpA,
    c2_forwarder_relay.2.2.1 cfgDefault reqIpA up1 "transfer-encoding" (by decide),
    c2_forwarder_relay.2.2.1 cfgDefault reqIpA up1 "connection" (by decide),
    (c2_forwarder_relay.2.2.2.1 cfgDefault reqIpA up1).1,
    c2_forwarder_relay.2.2.2.2.2 cfgDefault reqIpA up1 "x-test" "1" (by decide)
      (by decide) (by decide) (by decide) (Or.inl (by decide)),
    c2_forwarder_relay.2.2.2.2.2 cfgDefault reqIpA up1 "location"
      "https://other.example/" (by decide) (by decide) (by decide) (by decide)
      (Or.inl (by decide))⟩

/-! ### Error response lemmas for C8 -/

/-- A `fail` response keeps the headers it was given, plus `Content-Type`. -/
lemma getHeader_fail (r : Response) (c : Nat) (m q : String) :
    getHeader (fail r c m) q =
      if lower q = "content-type" then some "application/json; charset=utf-8"
      else getHeader r q := by
  unfold fail
  rw [getHeader_withBody, getHeader_setHeader]
  have e : lower "Content-Type" = "content-type" := by decide
  rw [e]

/-- C8 (amended): every error response of the standalone proxy handler is a
single-field JSON `error` object and carries the proxy's CORS headers —
each non-OPTIONS handler outcome is either `fail` applied to the
CORS-reflected fresh response with one of the error statuses
400/401/403/429/502, or a forwarded upstream response, and any such `fail`
response has body `jsonError msg`, the proxy's
`Access-Control-Allow-Origin` and `Access-Control-Expose-Headers` — while
the cors-anywhere wrapper's MissingTarget 400 response is a single-field
JSON `error` object that carries no CORS headers at all. -/
theorem c8_error_responses_json_cors :
    (∀ (cfg : Config) (req : Request) (r : Response) (c : Nat) (m : String),
      (fail (reflectCors cfg req r) c m).statusCode = c ∧
      (fail (reflectCors cfg req r) c m).body = jsonError m ∧
      getHeader (fail (reflectCors cfg req r) c m) "Access-Control-Allow-Origin" =
        some (if credentials cfg then originHeaderValue req else "*") ∧
      getHeader (fail (reflectCors cfg req r) c m) "Access-Control-Expose-Headers" =
        some "*") ∧
    (∀ (cfg : Config) (req : Request) (t : Nat) (rl : RLState) (f : FetchFn),
      ¬req.method = "OPTIONS" →
      (∃ c m, c ∈ [400, 401, 403, 429, 502] ∧
        (handler cfg req t rl f).1 =
          fail (reflectCors cfg req Response.empty) c m) ∨
      (∃ up, (handler cfg req t rl f).1 =
        forwardResult cfg req (reflectCors cfg req Response.empty) up)) ∧
    (∀ (u : String) (r' : Response), wrapperHandler u = .response r' →
      r'.statusCode = 400 ∧
      r'.body =
        jsonError "Provide target via ?url= or /api/proxy/<url>, only http(s) allowed." ∧
      getHeader r' "Access-Control-Allow-Origin" = none ∧
      getHeader r' "Access-Control-Expose-Headers" = none) := by
  refine ⟨?_, ?_, ?_⟩
  · intro cfg req r c m
    refine ⟨rfl, rfl, ?_, ?_⟩
    · rw [getHeader_fail]
      rw [if_neg (by decide)]
      rw [getHeader_reflectCors]
      by_cases hc : credentials cfg = true <;> simp +decide [hc]
    · rw [getHeader_fail]
      rw [if_neg (by decide)]
      rw [getHeader_reflectCors]
      simp +decide
  · intro cfg req t rl f hm
    by_cases hd : denylist cfg ≠ [] ∧ requestOrigin req ∈ denylist cfg
    · exact Or.inl ⟨403, "Origin denied.", by decide,
        by rw [handler_deny cfg req t rl f hm hd]⟩
    by_cases ha : allowlist cfg ≠ [] ∧ requestOrigin req ∉ allowlist cfg
    · exact Or.inl ⟨403, "Origin not allowed.", by decide,
        by rw [handler_allow cfg req t rl f hm hd ha]⟩
    cases hr : firstMissingHeader cfg req with
    | some rh =>
      exact Or.inl ⟨400, "Missing required header: " ++ rh, by decide,
        by rw [handler_missing_header cfg req t rl f rh hm hd ha hr]⟩
    | none =>
      by_cases hk : cfg.API_KEY ≠ "" ∧ (reqHeader req "x-proxy-key").getD "" ≠ cfg.API_KEY
      · exact Or.inl ⟨401, "Invalid or missing API key.", by decide,
          by rw [handler_key cfg req t rl f hm hd ha hr hk]⟩
      cases hq : (rateLimitAllow (rateLimitMax cfg) (getClientIP req) t rl).1 with
      | false =>
        exact Or.inl ⟨429, "Rate limit exceeded. Try later.", by decide,
          by rw [handler_rate cfg req t rl f hm hd ha hr hk hq]⟩
      | true =>
        by_cases hmt : getTargetFromRequest req.url = ""
        · exact Or.inl ⟨400, "Provide a target URL via ?url= or path /api/proxy/<url>.",
            by decide,
            by rw [handler_missing_target cfg req t rl f hm hd ha hr hk hq hmt]⟩
        cases hs : isHttpHttps (getTargetFromRequest req.url) with
        | false =>
          exact Or.inl ⟨400, "Only http(s) URLs are allowed.", by decide,
            by rw [handler_bad_scheme cfg req t rl f hm hd ha hr hk hq hmt hs]⟩
        | true =>
          cases hb : isBlockedPrivateHost (getTargetFromRequest req.url) with
          | true =>
            exact Or.inl ⟨403, "Target host is blocked.", by decide,
              by rw [handler_blocked cfg req t rl f hm hd ha hr hk hq hmt hs hb]⟩
          | false =>
            cases hf : f (getTargetFromRequest req.url) (upstreamFetchInit req) with
            | error e =>
              exact Or.inl ⟨502, "Upstream fetch failed: " ++ e, by decide,
                by rw [handler_fetch_error cfg req t rl f e hm hd ha hr hk hq hmt hs hb hf]⟩
            | ok up =>
              exact Or.inr ⟨up,
                by rw [handler_forward cfg req t rl f up hm hd ha hr hk hq hmt hs hb hf]⟩
  · intro u r' h
    unfold wrapperHandler at h
    dsimp only at h
    split at h
    · cases h
      exact ⟨rfl, rfl, by decide, by decide⟩
    · cases h

/-- C8 witness: the amended statement evaluated concretely — a blocked-host
403 from the standalone handler is a single-field JSON error carrying the
CORS headers, and the wrapper's MissingTarget 400 carries none. -/
theorem c8_error_responses_json_cors_witness :
    ((fail (reflectCors cfgDefault req127 Response.empty) 403
        "Target host is blocked.").body = jsonError "Target host is blocked." ∧
     getHeader (fail (reflectCors cfgDefault req127 Response.empty) 403
        "Target host is blocked.") "Access-Control-Allow-Origin" =
       some (if credentials cfgDefault then originHeaderValue req127 else "*")) ∧
    ((∃ c m, c ∈ [400, 401, 403, 429, 502] ∧
        (handler cfgDefault req127 0 [] fetch200).1 =
          fail (reflectCors cfgDefault req127 Response.empty) c m) ∨
     (∃ up, (handler cfgDefault req127 0 [] fetch200).1 =
        forwardResult cfgDefault req127 (reflectCors cfgDefault req127 Response.empty) up)) ∧
    (wrapper400.statusCode = 400 ∧
     getHeader wrapper400 "Access-Control-Allow-Origin" = none) := by
  have h1 := (c8_error_responses_json_cors.1 cfgDefault req127 Response.empty 403
    "Target host is blocked.")
  have h2 := c8_error_responses_json_cors.2.1 cfgDefault req127 0 [] fetch200 (by decide)
  have h3 := c8_error_responses_json_cors.2.2 "/api/proxy" wrapper400 (by decide)
  exact ⟨⟨h1.2.1, h1.2.2.1⟩, h2, h3.1, h3.2.2.1⟩

/-! ### C9 amended -/

/-- C9 (amended): the `fc`/`fd` rule of the SSRF guard is a plain prefix
test on the serialized hostname: every parsed target whose lowercased
hostname begins with `fc` or `fd` is rejected — including domain names
such as `fcdn.example.com` that are not IPv6 literals — while a bracketed
hostname (the serialization of every IPv6 literal) can never match the
prefix test. -/
theorem c9_fc_fd_prefix_rule :
    (∀ (s : String) (u : JSURL), parseURL s = some u →
      sStartsWith (lower u.hostname) "fc" = true ∨
        sStartsWith (lower u.hostname) "fd" = true →
      isBlockedPrivateHost s = true) ∧
    (∀ h : String, sStartsWith h "[" = true →
      sStartsWith (lower h) "fc" = false ∧ sStartsWith (lower h) "fd" = false) := by
  constructor
  · intro s u hp h
    unfold isBlockedPrivateHost
    rw [hp]
    unfold blockedHostnameCheck
    dsimp only
    split_ifs with h1 h2 h3 h4 h5
    · rfl
    · rfl
    · rfl
    · rfl
    · rfl
    · exfalso
      apply h5
      rcases h with h | h <;> simp [h]
  · intro h hb
    unfold sStartsWith at hb ⊢
    have hdata : ("[" : String).data = ['['] := rfl
    rw [hdata] at hb
    cases hl : h.data with
    | nil =>
      rw [hl] at hb
      simp [startsWithL] at hb
    | cons c cs =>
      rw [hl] at hb
      have hc : c = '[' := by
        have : (c == '[') = true ∧ startsWithL cs [] = true := by
          simpa [startsWithL] using hb
        exact beq_iff_eq.mp this.1
      subst hc
      unfold lower
      rw [hl]
      have hmap : List.map charToLower ('[' :: cs) = '[' :: List.map charToLower cs := by
        rw [List.map_cons]
        congr 1
      have hfc : ("fc" : String).data = ['f', 'c'] := rfl
      have hfd : ("fd" : String).data = ['f', 'd'] := rfl
      constructor
      · show startsWithL (String.mk (List.map charToLower ('[' :: cs))).data ("fc" : String).data = false
        rw [hfc, hmap]
        simp [startsWithL]
      · show startsWithL (String.mk (List.map charToLower ('[' :: cs))).data ("fd" : String).data = false
        rw [hfd, hmap]
        simp [startsWithL]

/-- C9 amended witness: the prefix rule evaluated on the domain
`fcdn.example.com` and on the bracketed IPv6 hostname `[fd00::1]`. -/
theorem c9_fc_fd_prefix_rule_witness :
    isBlockedPrivateHost "http://fcdn.example.com/" = true ∧
    (sStartsWith (lower "[fd00::1]") "fc" = false ∧
     sStartsWith (lower "[fd00::1]") "fd" = false) :=
  ⟨c9_fc_fd_prefix_rule.1 "http://fcdn.example.com/" ⟨"http:", "fcdn.example.com"⟩
      (by decide) (Or.inl (by decide)),
   c9_fc_fd_prefix_rule.2 "[fd00::1]" (by decide)⟩

end CorsProxy
